import Mathlib

/-!
Verification development for an IoT attack-detection service (src/main.py).

The Python module keeps three global stores (event_history, attack_logs,
user_profiles) and, on each ingested event, appends the event and runs seven
rule checks in a fixed order; each check may append an attack record, the
geo check may also seed a user profile, and two checks (power, geo) can raise
an exception on malformed context values, which aborts the remaining checks.

Modelling choices:
 - timestamps are seconds as Int (datetime arithmetic becomes Int arithmetic);
 - context values are a tagged union (bool / rational number / string),
   mirroring the dynamic dict, with Python truthiness made explicit;
 - uuid generation is modelled by a per-state counter nextId (uuids are an
   external id source: fresh, never read by the detection logic);
 - the float haversine computation is abstracted, inside the engine, as a
   parameter dist : String -> String -> Except Unit Rat, where an error models
   the ValueError/AttributeError raised on unparseable input; the formula
   itself is modelled separately over the reals (haversine_m below);
 - numeric formatting in messages uses Lean toString in place of Python float
   formatting (the claims do not depend on digit rendering);
 - an exception inside a check is modelled by Except St St: the error branch
   carries the state as mutated so far, since Python globals keep partial
   mutations when instrument raises.
-/

deriving instance DecidableEq for Except

namespace Detect

inductive CtxVal where
  | b (v : Bool)
  | num (q : ℚ)
  | str (s : String)
deriving DecidableEq, Repr

/-- Python truthiness of a context value. -/
def truthy : CtxVal → Bool
  | .b v => v
  | .num q => decide (q ≠ 0)
  | .str s => !(s == "")

def ctxToString : CtxVal → String
  | .b true => "True"
  | .b false => "False"
  | .num q => toString q
  | .str s => s

abbrev Ctx := List (String × CtxVal)

/-- dict.get(k): first binding for the key, if any. -/
def ctxGet (c : Ctx) (k : String) : Option CtxVal :=
  List.lookup k c

/-- dict.get(k, d). -/
def ctxGetD (c : Ctx) (k : String) (d : CtxVal) : CtxVal :=
  (ctxGet c k).getD d

/-- Truthiness of dict.get(k) with default None (None is falsy). -/
def truthyOpt : Option CtxVal → Bool
  | none => false
  | some v => truthy v

/-- Caller-supplied event (class Event): timestamp optional until ingestion. -/
structure Event where
  event_name : String
  user_role : String
  user_id : String
  source_id : String
  timestamp : Option Int
  context : Ctx
deriving DecidableEq, Repr

/-- Event after timestamp defaulting, as seen by the rule checks. -/
structure Ev where
  event_name : String
  user_role : String
  user_id : String
  source_id : String
  timestamp : Int
  context : Ctx
deriving DecidableEq, Repr

/-- class EventLog: persisted event record. -/
structure EventLog where
  id : Nat
  timestamp : Int
  event_name : String
  user_id : String
  source_id : String
  user_role : String
  context : Ctx
deriving DecidableEq, Repr

/-- class AttackLog: generated attack record. -/
structure AttackLog where
  id : Nat
  timestamp : Int
  event_name : String
  user_id : String
  source_id : String
  user_role : String
  detection_type : String
  message : String
  context : Ctx
deriving DecidableEq, Repr

/-- Per-user profile dict: usual_locations and authorized_devices, each
defaulting to empty when absent (dict.get with default). -/
structure UserProfile where
  usual_locations : List CtxVal
  authorized_devices : List String
deriving DecidableEq, Repr

/-- The module-level mutable state: event_history, attack_logs, user_profiles
(total map with empty-profile default, matching defaultdict plus .get
defaults), and the id counter standing in for uuid4. -/
structure St where
  event_history : List EventLog
  attack_logs : List AttackLog
  user_profiles : String → UserProfile
  nextId : Nat

def emptyProfile : UserProfile := ⟨[], []⟩

def initState : St :=
  ⟨[], [], fun _ => emptyProfile, 0⟩

/-- POST /reset-logs: clears the three stores (the uuid source is external
and is not reset). -/
def reset_logs (s : St) : St :=
  ⟨[], [], fun _ => emptyProfile, s.nextId⟩

-- DETECTION_CONFIG constants
def failed_login_threshold : Nat := 5
def failed_login_window : Int := 60
def toggle_spam_threshold : Nat := 10
def toggle_spam_window : Int := 30
def power_upper_percent : ℚ := 150
def power_lower_percent : ℚ := 10
def start_business_hours : Int := 8
def end_business_hours : Int := 18
def geo_distance_threshold_m : ℚ := 500
def geo_time_window : Int := 60

/-- Hour of day of a timestamp (datetime.hour). -/
def hourOf (t : Int) : Int := t % 86400 / 3600

def is_business_hours (t : Int) : Bool :=
  decide (start_business_hours ≤ hourOf t) && decide (hourOf t < end_business_hours)

def pad2 (n : Int) : String :=
  if n < 10 then "0" ++ toString n else toString n

/-- str(timestamp.time()) as HH:MM:SS. -/
def timeOfDay (t : Int) : String :=
  pad2 (hourOf t) ++ ":" ++ pad2 (t % 3600 / 60) ++ ":" ++ pad2 (t % 60)

/-- Distance oracle abstracting calculate_distance_meters inside the engine:
ok d is the returned distance in meters, error models the exception raised on
input that does not parse as two comma-separated floats. -/
def DistFn := String → String → Except Unit ℚ

/-- log_attack: append an attack record copying the triggering event. -/
def logAttack (s : St) (ev : Ev) (detection_type message : String) : St :=
  { s with
    attack_logs := s.attack_logs ++
      [⟨s.nextId, ev.timestamp, ev.event_name, ev.user_id, ev.source_id,
        ev.user_role, detection_type, message, ev.context⟩],
    nextId := s.nextId + 1 }

/-- Predicate of the failed-login count in check_failed_logins. -/
def failedPred (uid : String) (cutoff : Int) (e : EventLog) : Bool :=
  e.event_name == "login_attempt" && e.user_id == uid &&
  decide (cutoff ≤ e.timestamp) &&
  !(truthy (ctxGetD e.context "success" (CtxVal.b true)))

def check_failed_logins (s : St) (ev : Ev) : St :=
  if ev.event_name != "login_attempt" || truthy (ctxGetD ev.context "success" (CtxVal.b true)) then s
  else
    let cutoff := ev.timestamp - failed_login_window
    let failed_attempts := s.event_history.countP (failedPred ev.user_id cutoff)
    if failed_login_threshold ≤ failed_attempts then
      logAttack s ev "failed_login"
        (toString failed_attempts ++ " failed login attempts in 0:01:00")
    else s

/-- Predicate of the toggle count in check_toggle_spam. -/
def togglePred (uid : String) (cutoff : Int) (e : EventLog) : Bool :=
  (e.event_name == "toggle_device" || e.event_name == "adjust_device") &&
  e.user_id == uid && decide (cutoff ≤ e.timestamp)

def check_toggle_spam (s : St) (ev : Ev) : St :=
  if !(ev.event_name == "toggle_device" || ev.event_name == "adjust_device") then s
  else if (ev.user_role == "ADMIN" || ev.user_role == "MANAGER") && is_business_hours ev.timestamp then s
  else
    let cutoff := ev.timestamp - toggle_spam_window
    let toggle_count := s.event_history.countP (togglePred ev.user_id cutoff)
    if toggle_spam_threshold ≤ toggle_count then
      logAttack s ev "toggle_spam"
        (toString toggle_count ++ " toggle commands in 0:00:30")
    else s

/-- Numeric view of a context value, as Python arithmetic sees it
(bool is an int; a string in arithmetic or comparison raises TypeError,
modelled as none). -/
def toNum : CtxVal → Option ℚ
  | .b true => some 1
  | .b false => some 0
  | .num q => some q
  | .str _ => none

def check_power_anomalies (s : St) (ev : Ev) : Except St St :=
  if ev.event_name != "power_reading" then .ok s
  else
    match ctxGet ev.context "value" with
    | none => .ok s
    | some vv =>
      match ctxGet ev.context "historical_avg" with
      | none => .ok s
      | some av =>
        match toNum av, toNum vv with
        | some avg, some value =>
          let upper_threshold := avg * (power_upper_percent / 100)
          let lower_threshold := avg * (power_lower_percent / 100)
          if value ≤ 0 then
            .ok (logAttack s ev "power_anomaly" "Zero or negative power reading")
          else if upper_threshold < value then
            .ok (logAttack s ev "power_anomaly"
              ("Power spike detected (" ++ toString value ++ " > " ++ toString upper_threshold ++ ")"))
          else if value < lower_threshold then
            .ok (logAttack s ev "power_anomaly"
              ("Power drop detected (" ++ toString value ++ " < " ++ toString lower_threshold ++ ")"))
          else .ok s
        | _, _ => .error s

def check_unusual_time_activity (s : St) (ev : Ev) : St :=
  if ev.user_role == "ADMIN" || ev.user_role == "MANAGER" then s
  else if !(ev.event_name == "toggle_device" || ev.event_name == "adjust_device" ||
            ev.event_name == "set_power_level") then s
  else if !(is_business_hours ev.timestamp) then
    logAttack s ev "unusual_time"
      ("Activity outside business hours at " ++ timeOfDay ev.timestamp)
  else s

/-- Predicate selecting the recent successful located logins of a user
(the recent_logins list comprehension in check_geo_anomalies); note it tests
presence of the location key, not its truthiness. -/
def recentLoginPred (uid : String) (cutoff : Int) (e : EventLog) : Bool :=
  e.event_name == "login_attempt" && e.user_id == uid &&
  decide (cutoff ≤ e.timestamp) && truthyOpt (ctxGet e.context "success") &&
  (ctxGet e.context "location").isSome

/-- calculate_distance_meters applied to two stored context values: the code
calls .split on both, so a non-string raises (AttributeError), modelled as
error, and string parsing is delegated to the dist oracle. -/
def distCall (dist : DistFn) (l1 l2 : CtxVal) : Except Unit ℚ :=
  match l1, l2 with
  | .str a, .str b => dist a b
  | _, _ => .error ()

def geoMsg (location : CtxVal) (d : ℚ) (login_loc : CtxVal) : String :=
  "Login from unusual location " ++ ctxToString location ++
  " (distance: " ++ toString d ++ "m from " ++ ctxToString login_loc ++ ")"

/-- The for-loop over recent_logins: fires on the first login whose distance
exceeds the threshold, propagates the exception of a failed distance call. -/
def geoLoop (dist : DistFn) (s : St) (ev : Ev) (location : CtxVal) :
    List EventLog → Except St St
  | [] => .ok s
  | login :: rest =>
    match ctxGet login.context "location" with
    | none => .error s
    | some login_loc =>
      match distCall dist login_loc location with
      | .error _ => .error s
      | .ok d =>
        if geo_distance_threshold_m < d then
          .ok (logAttack s ev "geo_anomaly" (geoMsg location d login_loc))
        else geoLoop dist s ev location rest

def check_geo_anomalies (dist : DistFn) (s : St) (ev : Ev) : Except St St :=
  if ev.event_name != "login_attempt" || !(truthyOpt (ctxGet ev.context "success")) then .ok s
  else
    match ctxGet ev.context "location" with
    | none => .ok s
    | some location =>
      if !(truthy location) then .ok s
      else
        let prof := s.user_profiles ev.user_id
        if prof.usual_locations.isEmpty then
          let profiles := Function.update s.user_profiles ev.user_id
            ({ prof with usual_locations := [location] })
          .ok { s with user_profiles := profiles }
        else
          let cutoff := ev.timestamp - geo_time_window
          let recent_logins := s.event_history.filter (recentLoginPred ev.user_id cutoff)
          geoLoop dist s ev location recent_logins

def check_device_impersonation (s : St) (ev : Ev) : St :=
  if !(ev.event_name == "toggle_device" || ev.event_name == "adjust_device") then s
  else
    let authorized_devices := (s.user_profiles ev.user_id).authorized_devices
    if authorized_devices.contains ev.source_id then s
    else logAttack s ev "device_impersonation"
      ("Unauthorized device access: " ++ ev.source_id)

def check_role_escalation (s : St) (ev : Ev) : St :=
  if ev.event_name != "change_role" then s
  else if ev.user_role == "ADMIN" || ev.user_role == "MANAGER" then s
  else
    match ctxGet ev.context "new_role" with
    | some (.str new_role) =>
      if new_role == "ADMIN" || new_role == "MANAGER" then
        logAttack s ev "role_escalation" ("Unauthorized role change to " ++ new_role)
      else s
    | _ => s

/-- The seven checks in source order; an exception short-circuits the rest,
keeping the mutations made so far. -/
def runChecks (dist : DistFn) (s : St) (ev : Ev) : Except St St :=
  match check_power_anomalies (check_toggle_spam (check_failed_logins s ev) ev) ev with
  | .error t => .error t
  | .ok t =>
    match check_geo_anomalies dist (check_unusual_time_activity t ev) ev with
    | .error u => .error u
    | .ok u => .ok (check_role_escalation (check_device_impersonation u ev) ev)

/-- The EventLog persisted for an event by instrument. -/
def mkEventLog (s : St) (ev : Ev) : EventLog :=
  ⟨s.nextId, ev.timestamp, ev.event_name, ev.user_id, ev.source_id,
   ev.user_role, ev.context⟩

/-- Timestamp defaulting at the top of instrument (datetime.now() for an
absent timestamp, passed in as the parameter now). -/
def toEv (now : Int) (e : Event) : Ev :=
  ⟨e.event_name, e.user_role, e.user_id, e.source_id,
   e.timestamp.getD now, e.context⟩

/-- Persist the event record (event_history.append plus the id draw). -/
def pushEvent (s : St) (ev : Ev) : St :=
  { s with event_history := s.event_history ++ [mkEventLog s ev],
           nextId := s.nextId + 1 }

/-- instrument: default the timestamp, persist the event, run the checks.
The second component is the returned record, or error when a check raised
(in Python the exception propagates to the caller of instrument). -/
def instrument (dist : DistFn) (now : Int) (s : St) (e : Event) :
    St × Except Unit EventLog :=
  let ev := toEv now e
  let log := mkEventLog s ev
  match runChecks dist (pushEvent s ev) ev with
  | .ok s2 => (s2, .ok log)
  | .error s2 => (s2, .error ())

/-- Ingest a sequence of events (states thread through, exceptions are
per-event as at the HTTP boundary). -/
def runEvents (dist : DistFn) (now : Int) (s : St) (es : List Event) : St :=
  es.foldl (fun s e => (instrument dist now s e).1) s

/-- Python list slice xs[-limit:] for an arbitrary integer limit. -/
def pySliceLast {α : Type} (l : List α) (limit : Int) : List α :=
  if 0 < limit then l.drop (l.length - limit.toNat)
  else l.drop (-limit).toNat

/-- GET /event-logs. -/
def get_event_logs (limit : Int) (s : St) : List EventLog :=
  pySliceLast s.event_history limit

/-- GET /attack-logs. -/
def get_attack_logs (limit : Int) (s : St) : List AttackLog :=
  pySliceLast s.attack_logs limit

/-- Pure rendering of the geo for-loop: scan the recent logins in order,
return the first prior location and distance exceeding the threshold,
none if the scan completes quietly, error if a distance call raises. -/
def geoScan (dist : DistFn) (location : CtxVal) :
    List EventLog → Except Unit (Option (CtxVal × ℚ))
  | [] => .ok none
  | login :: rest =>
    match ctxGet login.context "location" with
    | none => .error ()
    | some login_loc =>
      match distCall dist login_loc location with
      | .error _ => .error ()
      | .ok d =>
        if geo_distance_threshold_m < d then .ok (some (login_loc, d))
        else geoScan dist location rest

/-- Does this stored login lie more than the threshold away from the given
location (with a successful distance computation)? -/
def fireB (dist : DistFn) (location : CtxVal) (login : EventLog) : Bool :=
  match ctxGet login.context "location" with
  | some login_loc =>
    match distCall dist login_loc location with
    | .ok d => decide (geo_distance_threshold_m < d)
    | .error _ => false
  | none => false

/-- EventLog with the generated id erased (uuids are fresh, never read). -/
structure EventLogE where
  timestamp : Int
  event_name : String
  user_id : String
  source_id : String
  user_role : String
  context : Ctx
deriving DecidableEq, Repr

def eraseE (l : EventLog) : EventLogE :=
  ⟨l.timestamp, l.event_name, l.user_id, l.source_id, l.user_role, l.context⟩

/-- AttackLog with the generated id erased. -/
structure AttackLogE where
  timestamp : Int
  event_name : String
  user_id : String
  source_id : String
  user_role : String
  detection_type : String
  message : String
  context : Ctx
deriving DecidableEq, Repr

def eraseA (a : AttackLog) : AttackLogE :=
  ⟨a.timestamp, a.event_name, a.user_id, a.source_id, a.user_role,
   a.detection_type, a.message, a.context⟩

/-- Two states that agree on everything that detection can observe:
the stores up to generated ids, and the profiles. -/
def Agree (s₁ s₂ : St) : Prop :=
  s₁.event_history.map eraseE = s₂.event_history.map eraseE ∧
  s₁.attack_logs.map eraseA = s₂.attack_logs.map eraseA ∧
  s₁.user_profiles = s₂.user_profiles

/-- Agreement lifted to check results: same outcome, agreeing states. -/
def AgreeE : Except St St → Except St St → Prop
  | .ok a, .ok b => Agree a b
  | .error a, .error b => Agree a b
  | _, _ => False

/-- An attack record carries exactly the field set of this event record. -/
def refs (a : AttackLog) (l : EventLog) : Prop :=
  a.timestamp = l.timestamp ∧ a.event_name = l.event_name ∧
  a.user_id = l.user_id ∧ a.source_id = l.source_id ∧
  a.user_role = l.user_role ∧ a.context = l.context

/-- An attack record carries exactly the field set of this (defaulted) event. -/
def refsEv (a : AttackLog) (ev : Ev) : Prop :=
  a.timestamp = ev.timestamp ∧ a.event_name = ev.event_name ∧
  a.user_id = ev.user_id ∧ a.source_id = ev.source_id ∧
  a.user_role = ev.user_role ∧ a.context = ev.context

/-- Referential invariant: every attack record points at a persisted event. -/
def Inv (s : St) : Prop :=
  ∀ a ∈ s.attack_logs, ∃ l ∈ s.event_history, refs a l

/-- The checks modify the state only by appending attack records whose field
set is the ingested event's, leaving the event store alone. -/
def StepShape (s s' : St) (ev : Ev) : Prop :=
  s'.event_history = s.event_history ∧
  ∃ Δ, s'.attack_logs = s.attack_logs ++ Δ ∧ ∀ a ∈ Δ, refsEv a ev

/-- The profile-store update performed by the geo bootstrap: the user's
usual_locations become the singleton of the login's location, everything
else (authorized_devices, other users) is untouched. -/
def seedProfile (s : St) (uid : String) (lv : CtxVal) : St :=
  let prof := s.user_profiles uid
  let profiles := Function.update s.user_profiles uid ⟨[lv], prof.authorized_devices⟩
  { s with user_profiles := profiles }

/-- The state carried by a check result, whether it returned or raised. -/
def stOf : Except St St → St
  | .ok t => t
  | .error t => t

/-- Frame condition on the profile store across one ingestion: other users
untouched, this user's authorized_devices untouched, and usual_locations
either untouched or seeded by the geo bootstrap (first successful located
login of a user with no recorded usual location). -/
def ProfileFrame (s s' : St) (ev : Ev) : Prop :=
  (∀ uid, uid ≠ ev.user_id → s'.user_profiles uid = s.user_profiles uid) ∧
  (s'.user_profiles ev.user_id).authorized_devices =
    (s.user_profiles ev.user_id).authorized_devices ∧
  ((s'.user_profiles ev.user_id).usual_locations =
      (s.user_profiles ev.user_id).usual_locations ∨
    ((s.user_profiles ev.user_id).usual_locations = [] ∧
     ev.event_name = "login_attempt" ∧
     truthyOpt (ctxGet ev.context "success") = true ∧
     ∃ lv, ctxGet ev.context "location" = some lv ∧ truthy lv = true ∧
       (s'.user_profiles ev.user_id).usual_locations = [lv]))

/-- Concrete distance oracle used by closed instances: zero between equal
strings, a fixed large distance otherwise, failing on the marker string that
stands for an unparseable coordinate. -/
def distTest : DistFn := fun a b =>
  if a == "bad" || b == "bad" then .error ()
  else if a == b then .ok 0
  else .ok 1000

/-- str.split(sep) for a one-character separator, on the character list. -/
def splitOnChar (c : Char) : List Char → List (List Char)
  | [] => [[]]
  | x :: xs =>
    let r := splitOnChar c xs
    if x == c then [] :: r
    else
      match r with
      | h :: t => (x :: h) :: t
      | [] => [[x]]

/-- An all-digit run read as a natural number. -/
def parseNatDigits (l : List Char) : Option Nat :=
  if l ≠ [] ∧ l.all (fun c => c.isDigit) then
    some (l.foldl (fun acc c => acc * 10 + (c.toNat - 48)) 0)
  else none

/-- An optional minus sign followed by digits. -/
def parseIntChars : List Char → Option Int
  | [] => none
  | x :: xs =>
    if x == Char.ofNat 45 then (parseNatDigits xs).map (fun n => -(n : Int))
    else (parseNatDigits (x :: xs)).map (fun n => (n : Int))

/-- Decimal float-literal parsing: a faithful model of Python float() on the
plain decimal strings used for coordinates (exponent and special float forms
are outside the modelled input space). -/
def parseDecimal (s : String) : Option ℚ :=
  match splitOnChar (Char.ofNat 46) s.toList with
  | [w] => (parseIntChars w).map (fun n => (n : ℚ))
  | [w, f] =>
    match parseIntChars w, parseNatDigits f with
    | some n, some fn =>
      let frac : ℚ := (fn : ℚ) / ((10 : ℚ) ^ f.length)
      some (if s.toList.head? = some (Char.ofNat 45) then (n : ℚ) - frac
            else (n : ℚ) + frac)
    | _, _ => none
  | _ => none

/-- loc.split(',') with unpacking into exactly two floats. -/
def parseCoord (s : String) : Option (ℚ × ℚ) :=
  match splitOnChar (Char.ofNat 44) s.toList with
  | [a, b] =>
    match parseDecimal ⟨a⟩, parseDecimal ⟨b⟩ with
    | some x, some y => some (x, y)
    | _, _ => none
  | _ => none

/-- math.radians. -/
noncomputable def radians (x : ℝ) : ℝ := x * Real.pi / 180

/-- math.atan2 with the usual quadrant conventions. -/
noncomputable def atan2 (y x : ℝ) : ℝ :=
  if 0 < x then Real.arctan (y / x)
  else if x < 0 ∧ 0 ≤ y then Real.arctan (y / x) + Real.pi
  else if x < 0 then Real.arctan (y / x) - Real.pi
  else if 0 < y then Real.pi / 2
  else if y < 0 then -(Real.pi / 2)
  else 0

/-- The haversine quantity a of calculate_distance_meters. -/
noncomputable def haversine_a (lat1 lon1 lat2 lon2 : ℝ) : ℝ :=
  Real.sin (radians (lat2 - lat1) / 2) * Real.sin (radians (lat2 - lat1) / 2) +
    Real.cos (radians lat1) * Real.cos (radians lat2) *
      (Real.sin (radians (lon2 - lon1) / 2) * Real.sin (radians (lon2 - lon1) / 2))

/-- R * c of calculate_distance_meters: great-circle distance in meters on
the sphere of radius 6,371,000 m. -/
noncomputable def haversine_m (lat1 lon1 lat2 lon2 : ℝ) : ℝ :=
  6371000 *
    (2 * atan2 (Real.sqrt (haversine_a lat1 lon1 lat2 lon2))
      (Real.sqrt (1 - haversine_a lat1 lon1 lat2 lon2)))

/-- calculate_distance_meters over the reals: parse both coordinate strings,
then the haversine distance; none models the exception raised on unparseable
input. -/
noncomputable def calculate_distance_meters (loc1 loc2 : String) : Option ℝ :=
  match parseCoord loc1, parseCoord loc2 with
  | some (lat1, lon1), some (lat2, lon2) =>
    some (haversine_m (lat1 : ℝ) (lon1 : ℝ) (lat2 : ℝ) (lon2 : ℝ))
  | _, _ => none

/-! ### Skip lemmas: each check leaves the state alone off its event kind -/

theorem check_failed_logins_skip_name (s : St) (ev : Ev)
    (h : ev.event_name ≠ "login_attempt") : check_failed_logins s ev = s := by
  simp [check_failed_logins, bne_iff_ne, h]

theorem check_failed_logins_skip_succ (s : St) (ev : Ev)
    (h : truthy (ctxGetD ev.context "success" (CtxVal.b true)) = true) :
    check_failed_logins s ev = s := by
  simp [check_failed_logins, h]

theorem check_toggle_spam_skip_name (s : St) (ev : Ev)
    (h1 : ev.event_name ≠ "toggle_device") (h2 : ev.event_name ≠ "adjust_device") :
    check_toggle_spam s ev = s := by
  simp [check_toggle_spam, h1, h2]

theorem check_power_anomalies_skip_name (s : St) (ev : Ev)
    (h : ev.event_name ≠ "power_reading") : check_power_anomalies s ev = .ok s := by
  simp [check_power_anomalies, bne_iff_ne, h]

theorem check_unusual_time_activity_skip_name (s : St) (ev : Ev)
    (h1 : ev.event_name ≠ "toggle_device") (h2 : ev.event_name ≠ "adjust_device")
    (h3 : ev.event_name ≠ "set_power_level") :
    check_unusual_time_activity s ev = s := by
  simp [check_unusual_time_activity, h1, h2, h3]

theorem check_geo_anomalies_skip_name (dist : DistFn) (s : St) (ev : Ev)
    (h : ev.event_name ≠ "login_attempt") : check_geo_anomalies dist s ev = .ok s := by
  simp [check_geo_anomalies, bne_iff_ne, h]

theorem check_geo_anomalies_skip_succ (dist : DistFn) (s : St) (ev : Ev)
    (h : truthyOpt (ctxGet ev.context "success") = false) :
    check_geo_anomalies dist s ev = .ok s := by
  simp [check_geo_anomalies, h]

theorem check_device_impersonation_skip_name (s : St) (ev : Ev)
    (h1 : ev.event_name ≠ "toggle_device") (h2 : ev.event_name ≠ "adjust_device") :
    check_device_impersonation s ev = s := by
  simp [check_device_impersonation, h1, h2]

theorem check_role_escalation_skip_name (s : St) (ev : Ev)
    (h : ev.event_name ≠ "change_role") : check_role_escalation s ev = s := by
  simp [check_role_escalation, bne_iff_ne, h]

/-! ### Composition of the check pipeline per event kind -/

theorem runChecks_login (dist : DistFn) (s : St) (ev : Ev)
    (h : ev.event_name = "login_attempt") :
    runChecks dist s ev = check_geo_anomalies dist (check_failed_logins s ev) ev := by
  have h1 : ev.event_name ≠ "toggle_device" := by rw [h]; decide
  have h2 : ev.event_name ≠ "adjust_device" := by rw [h]; decide
  have h3 : ev.event_name ≠ "power_reading" := by rw [h]; decide
  have h4 : ev.event_name ≠ "set_power_level" := by rw [h]; decide
  have h5 : ev.event_name ≠ "change_role" := by rw [h]; decide
  unfold runChecks
  rw [check_toggle_spam_skip_name _ _ h1 h2, check_power_anomalies_skip_name _ _ h3]
  simp only [check_unusual_time_activity_skip_name _ _ h1 h2 h4]
  cases hg : check_geo_anomalies dist (check_failed_logins s ev) ev with
  | ok s2 => simp [check_device_impersonation_skip_name _ _ h1 h2,
                   check_role_escalation_skip_name _ _ h5]
  | error s2 => simp

theorem runChecks_toggle (dist : DistFn) (s : St) (ev : Ev)
    (h : ev.event_name = "toggle_device" ∨ ev.event_name = "adjust_device") :
    runChecks dist s ev =
      .ok (check_device_impersonation
            (check_unusual_time_activity (check_toggle_spam s ev) ev) ev) := by
  have h1 : ev.event_name ≠ "login_attempt" := by rcases h with h | h <;> rw [h] <;> decide
  have h3 : ev.event_name ≠ "power_reading" := by rcases h with h | h <;> rw [h] <;> decide
  have h5 : ev.event_name ≠ "change_role" := by rcases h with h | h <;> rw [h] <;> decide
  unfold runChecks
  rw [check_failed_logins_skip_name _ _ h1, check_power_anomalies_skip_name _ _ h3]
  simp only [check_geo_anomalies_skip_name dist _ _ h1]
  simp [check_role_escalation_skip_name _ _ h5]

theorem runChecks_power (dist : DistFn) (s : St) (ev : Ev)
    (h : ev.event_name = "power_reading") :
    runChecks dist s ev = check_power_anomalies s ev := by
  have h1 : ev.event_name ≠ "login_attempt" := by rw [h]; decide
  have h2 : ev.event_name ≠ "toggle_device" := by rw [h]; decide
  have h3 : ev.event_name ≠ "adjust_device" := by rw [h]; decide
  have h4 : ev.event_name ≠ "set_power_level" := by rw [h]; decide
  have h5 : ev.event_name ≠ "change_role" := by rw [h]; decide
  unfold runChecks
  rw [check_failed_logins_skip_name _ _ h1, check_toggle_spam_skip_name _ _ h2 h3]
  cases hp : check_power_anomalies s ev with
  | ok s2 =>
    simp only [check_unusual_time_activity_skip_name _ _ h2 h3 h4,
        check_geo_anomalies_skip_name dist _ _ h1]
    simp [check_device_impersonation_skip_name _ _ h2 h3,
          check_role_escalation_skip_name _ _ h5]
  | error s2 => simp

/-! ### C6: log-listing endpoints -/

theorem pySliceLast_suffix {α : Type} (l : List α) (limit : Int) :
    pySliceLast l limit <:+ l := by
  unfold pySliceLast
  split <;> exact List.drop_suffix _ _

theorem pySliceLast_length_le {α : Type} (l : List α) (limit : Int)
    (hl : 1 ≤ limit) : ((pySliceLast l limit).length : Int) ≤ limit := by
  unfold pySliceLast
  rw [if_pos (by omega : (0 : Int) < limit), List.length_drop]
  omega

/-- C6 counterexample: with one stored event, GET /event-logs with limit = 0
returns the whole history ([-0:] is the full slice), so its length exceeds
the limit — the claim fails for the integer limit 0. -/
theorem recent_events_limit_zero_violates :
    ¬ (((get_event_logs 0
          ⟨[⟨0, 0, "login_attempt", "u1", "ip1", "USER", []⟩], [],
            fun _ => emptyProfile, 1⟩).length : Int) ≤ 0) := by
  decide

/-- C6 (amended): for every positive integer limit, RecentEvents(limit) and
RecentAttacks(limit) each return a suffix of the corresponding append-ordered
store (hence ordered, most-recent-last) of length at most limit. -/
theorem recent_logs_suffix_and_bounded (limit : Int) (hl : 1 ≤ limit) (s : St) :
    (get_event_logs limit s <:+ s.event_history ∧
      ((get_event_logs limit s).length : Int) ≤ limit) ∧
    (get_attack_logs limit s <:+ s.attack_logs ∧
      ((get_attack_logs limit s).length : Int) ≤ limit) :=
  ⟨⟨pySliceLast_suffix _ _, pySliceLast_length_le _ _ hl⟩,
   ⟨pySliceLast_suffix _ _, pySliceLast_length_le _ _ hl⟩⟩

/-- C6 witness: the amended statement evaluated at limit 2 on a two-event
store. -/
theorem recent_logs_suffix_and_bounded_witness :
    (1 : Int) ≤ 2 ∧
    ((get_event_logs 2
        ⟨[⟨0, 0, "a", "u", "s", "USER", []⟩, ⟨1, 5, "b", "u", "s", "USER", []⟩],
          [], fun _ => emptyProfile, 2⟩ <:+
        [⟨0, 0, "a", "u", "s", "USER", []⟩, ⟨1, 5, "b", "u", "s", "USER", []⟩]) ∧
      ((get_event_logs 2
        ⟨[⟨0, 0, "a", "u", "s", "USER", []⟩, ⟨1, 5, "b", "u", "s", "USER", []⟩],
          [], fun _ => emptyProfile, 2⟩).length : Int) ≤ 2) ∧
    ((get_attack_logs 2
        ⟨[⟨0, 0, "a", "u", "s", "USER", []⟩, ⟨1, 5, "b", "u", "s", "USER", []⟩],
          [], fun _ => emptyProfile, 2⟩ <:+ []) ∧
      ((get_attack_logs 2
        ⟨[⟨0, 0, "a", "u", "s", "USER", []⟩, ⟨1, 5, "b", "u", "s", "USER", []⟩],
          [], fun _ => emptyProfile, 2⟩).length : Int) ≤ 2) :=
  ⟨by decide, recent_logs_suffix_and_bounded 2 (by decide) _⟩

/-! ### C1: a malformed location aborts the whole ingestion -/

/-- C1 (code bug): ingesting a successful login whose location string cannot
be parsed, for a user whose profile already holds a usual location and who
has a prior successful located login inside the window, makes instrument
raise: the call returns no EventRecord (the HTTP layer turns this into a 400)
even though the event itself was already persisted — contradicting the claim
that a malformed context value only makes the affected rule skip. -/
theorem malformed_location_aborts_ingest :
    (instrument distTest 0 initState
      ⟨"login_attempt", "USER", "u7", "ip1", some 0,
        [("success", CtxVal.b true), ("location", CtxVal.str "40.7,-74.0")]⟩).2 =
      .ok ⟨0, 0, "login_attempt", "u7", "ip1", "USER",
        [("success", CtxVal.b true), ("location", CtxVal.str "40.7,-74.0")]⟩ ∧
    (instrument distTest 0
      (instrument distTest 0 initState
        ⟨"login_attempt", "USER", "u7", "ip1", some 0,
          [("success", CtxVal.b true), ("location", CtxVal.str "40.7,-74.0")]⟩).1
      ⟨"login_attempt", "USER", "u7", "ip1", some 10,
        [("success", CtxVal.b true), ("location", CtxVal.str "bad")]⟩).2 =
      .error () ∧
    (instrument distTest 0
      (instrument distTest 0 initState
        ⟨"login_attempt", "USER", "u7", "ip1", some 0,
          [("success", CtxVal.b true), ("location", CtxVal.str "40.7,-74.0")]⟩).1
      ⟨"login_attempt", "USER", "u7", "ip1", some 10,
        [("success", CtxVal.b true), ("location", CtxVal.str "bad")]⟩).1.event_history.length = 2 := by
  refine ⟨?_, ?_, ?_⟩ <;> decide

/-! ### C5: power anomaly cascade -/

/-- C5 counterexample: for a power_reading with value = historical_avg = 0
the code does fire (a power_anomaly record with the non-positive-reading
message), so the clause that no record is produced when value equals
historical_avg is false as stated. -/
theorem power_anomaly_equal_avg_fires :
    (ctxGet [("value", CtxVal.num 0), ("historical_avg", CtxVal.num 0)] "value" =
      ctxGet [("value", CtxVal.num 0), ("historical_avg", CtxVal.num 0)] "historical_avg") ∧
    (instrument distTest 0 initState
      ⟨"power_reading", "SYSTEM", "sensor_2", "meter_1", some 0,
        [("value", CtxVal.num 0), ("historical_avg", CtxVal.num 0)]⟩).1.attack_logs.map
      (fun a => (a.detection_type, a.message)) =
      [("power_anomaly", "Zero or negative power reading")] := by
  refine ⟨?_, ?_⟩ <;> decide

/-- C5 (amended): for a power_reading whose context holds numeric value and
historical_avg, exactly one power_anomaly record is appended when value ≤ 0
(non-positive message), else when value > avg·1.5 (spike), else when
value < avg·0.10 (drop), and none otherwise — in particular none when value
equals historical_avg and is positive; when either key is absent no check is
performed.  Ingestion always returns the persisted record. -/
theorem power_anomaly_cascade (dist : DistFn) (now : Int) (s : St)
    (role uid sid : String) (ts : Option Int) (ctx : Ctx) :
    (∀ v a : ℚ, ctxGet ctx "value" = some (CtxVal.num v) →
      ctxGet ctx "historical_avg" = some (CtxVal.num a) →
      (instrument dist now s ⟨"power_reading", role, uid, sid, ts, ctx⟩).2 =
        .ok ⟨s.nextId, ts.getD now, "power_reading", uid, sid, role, ctx⟩ ∧
      (instrument dist now s ⟨"power_reading", role, uid, sid, ts, ctx⟩).1.attack_logs =
        s.attack_logs ++
          (if v ≤ 0 then
            [⟨s.nextId + 1, ts.getD now, "power_reading", uid, sid, role,
              "power_anomaly", "Zero or negative power reading", ctx⟩]
           else if a * (power_upper_percent / 100) < v then
            [⟨s.nextId + 1, ts.getD now, "power_reading", uid, sid, role,
              "power_anomaly",
              "Power spike detected (" ++ toString v ++ " > " ++
                toString (a * (power_upper_percent / 100)) ++ ")", ctx⟩]
           else if v < a * (power_lower_percent / 100) then
            [⟨s.nextId + 1, ts.getD now, "power_reading", uid, sid, role,
              "power_anomaly",
              "Power drop detected (" ++ toString v ++ " < " ++
                toString (a * (power_lower_percent / 100)) ++ ")", ctx⟩]
           else []) ∧
      (0 < v → v = a →
        (instrument dist now s ⟨"power_reading", role, uid, sid, ts, ctx⟩).1.attack_logs =
          s.attack_logs)) ∧
    (ctxGet ctx "value" = none →
      (instrument dist now s ⟨"power_reading", role, uid, sid, ts, ctx⟩).2 =
        .ok ⟨s.nextId, ts.getD now, "power_reading", uid, sid, role, ctx⟩ ∧
      (instrument dist now s ⟨"power_reading", role, uid, sid, ts, ctx⟩).1.attack_logs =
        s.attack_logs) ∧
    (∀ vv, ctxGet ctx "value" = some vv → ctxGet ctx "historical_avg" = none →
      (instrument dist now s ⟨"power_reading", role, uid, sid, ts, ctx⟩).2 =
        .ok ⟨s.nextId, ts.getD now, "power_reading", uid, sid, role, ctx⟩ ∧
      (instrument dist now s ⟨"power_reading", role, uid, sid, ts, ctx⟩).1.attack_logs =
        s.attack_logs) := by
  refine ⟨?_, ?_, ?_⟩
  · intro v a hv ha
    have hbase :
        (instrument dist now s ⟨"power_reading", role, uid, sid, ts, ctx⟩).2 =
          .ok ⟨s.nextId, ts.getD now, "power_reading", uid, sid, role, ctx⟩ ∧
        (instrument dist now s ⟨"power_reading", role, uid, sid, ts, ctx⟩).1.attack_logs =
          s.attack_logs ++
            (if v ≤ 0 then
              [⟨s.nextId + 1, ts.getD now, "power_reading", uid, sid, role,
                "power_anomaly", "Zero or negative power reading", ctx⟩]
             else if a * (power_upper_percent / 100) < v then
              [⟨s.nextId + 1, ts.getD now, "power_reading", uid, sid, role,
                "power_anomaly",
                "Power spike detected (" ++ toString v ++ " > " ++
                  toString (a * (power_upper_percent / 100)) ++ ")", ctx⟩]
             else if v < a * (power_lower_percent / 100) then
              [⟨s.nextId + 1, ts.getD now, "power_reading", uid, sid, role,
                "power_anomaly",
                "Power drop detected (" ++ toString v ++ " < " ++
                  toString (a * (power_lower_percent / 100)) ++ ")", ctx⟩]
             else []) := by
      simp only [instrument]
      rw [runChecks_power _ _ _ rfl]
      simp only [check_power_anomalies, toEv, pushEvent, mkEventLog, hv, ha, toNum,
        bne_self_eq_false, Bool.false_eq_true, if_false]
      split_ifs <;> simp [logAttack, mkEventLog, toEv, pushEvent]
    refine ⟨hbase.1, hbase.2, ?_⟩
    intro hpos heq
    rw [hbase.2]
    have c1 : ¬ (v ≤ 0) := by linarith
    have c2 : ¬ (a * (power_upper_percent / 100) < v) := by
      rw [power_upper_percent]
      subst heq
      nlinarith
    have c3 : ¬ (v < a * (power_lower_percent / 100)) := by
      rw [power_lower_percent]
      subst heq
      nlinarith
    simp [c1, c2, c3]
  · intro hv
    simp only [instrument]
    rw [runChecks_power _ _ _ rfl]
    simp only [check_power_anomalies, toEv, pushEvent, mkEventLog, hv]
    simp [mkEventLog, toEv, pushEvent]
  · intro vv hv ha
    simp only [instrument]
    rw [runChecks_power _ _ _ rfl]
    simp only [check_power_anomalies, toEv, pushEvent, mkEventLog, hv, ha]
    simp [mkEventLog, toEv, pushEvent]

/-- C5 witness: the amended statement evaluated on a concrete reading with
value 0 and historical_avg 100, firing the non-positive-reading record. -/
theorem power_anomaly_cascade_witness :
    ctxGet [("value", CtxVal.num 0), ("historical_avg", CtxVal.num 100)] "value" =
      some (CtxVal.num 0) ∧
    ctxGet [("value", CtxVal.num 0), ("historical_avg", CtxVal.num 100)] "historical_avg" =
      some (CtxVal.num 100) ∧
    (instrument distTest 7 initState
      ⟨"power_reading", "SYSTEM", "s1", "m1", some 0,
        [("value", CtxVal.num 0), ("historical_avg", CtxVal.num 100)]⟩).1.attack_logs =
      [] ++
        (if (0 : ℚ) ≤ 0 then
          [⟨0 + 1, (some (0 : Int)).getD 7, "power_reading", "s1", "m1", "SYSTEM",
            "power_anomaly", "Zero or negative power reading",
            [("value", CtxVal.num 0), ("historical_avg", CtxVal.num 100)]⟩]
         else if (100 : ℚ) * (power_upper_percent / 100) < 0 then
          [⟨0 + 1, (some (0 : Int)).getD 7, "power_reading", "s1", "m1", "SYSTEM",
            "power_anomaly",
            "Power spike detected (" ++ toString (0 : ℚ) ++ " > " ++
              toString ((100 : ℚ) * (power_upper_percent / 100)) ++ ")",
            [("value", CtxVal.num 0), ("historical_avg", CtxVal.num 100)]⟩]
         else if (0 : ℚ) < 100 * (power_lower_percent / 100) then
          [⟨0 + 1, (some (0 : Int)).getD 7, "power_reading", "s1", "m1", "SYSTEM",
            "power_anomaly",
            "Power drop detected (" ++ toString (0 : ℚ) ++ " < " ++
              toString ((100 : ℚ) * (power_lower_percent / 100)) ++ ")",
            [("value", CtxVal.num 0), ("historical_avg", CtxVal.num 100)]⟩]
         else []) :=
  ⟨rfl, rfl,
    ((power_anomaly_cascade distTest 7 initState "SYSTEM" "s1" "m1" (some 0)
      [("value", CtxVal.num 0), ("historical_avg", CtxVal.num 100)]).1
      0 100 rfl rfl).2.1⟩

/-! ### C2: failed-login threshold -/

/-- C2: a failed login_attempt (success present and falsy) appends exactly one
failed_login record precisely when the count of failed logins of this user
within the trailing minute — taken over the history that already includes the
just-persisted event — reaches the threshold 5, and never below it; a
login_attempt without the success key fires nothing and its stored record is
never counted as failed by any later window.  Ingestion always returns the
persisted record. -/
theorem failed_login_threshold_behavior (dist : DistFn) (now : Int) (s : St)
    (role uid sid : String) (ts : Option Int) (ctx : Ctx) :
    (truthy (ctxGetD ctx "success" (CtxVal.b true)) = false →
      (instrument dist now s ⟨"login_attempt", role, uid, sid, ts, ctx⟩).2 =
        .ok ⟨s.nextId, ts.getD now, "login_attempt", uid, sid, role, ctx⟩ ∧
      (instrument dist now s ⟨"login_attempt", role, uid, sid, ts, ctx⟩).1.attack_logs =
        s.attack_logs ++
          (if failed_login_threshold ≤
              (s.event_history ++
                [(⟨s.nextId, ts.getD now, "login_attempt", uid, sid, role, ctx⟩ : EventLog)]).countP
                (failedPred uid (ts.getD now - failed_login_window)) then
            [⟨s.nextId + 1, ts.getD now, "login_attempt", uid, sid, role, "failed_login",
              toString
                ((s.event_history ++
                  [(⟨s.nextId, ts.getD now, "login_attempt", uid, sid, role, ctx⟩ : EventLog)]).countP
                  (failedPred uid (ts.getD now - failed_login_window))) ++
                " failed login attempts in 0:01:00", ctx⟩]
           else [])) ∧
    (ctxGet ctx "success" = none →
      (instrument dist now s ⟨"login_attempt", role, uid, sid, ts, ctx⟩).2 =
        .ok ⟨s.nextId, ts.getD now, "login_attempt", uid, sid, role, ctx⟩ ∧
      (instrument dist now s ⟨"login_attempt", role, uid, sid, ts, ctx⟩).1.attack_logs =
        s.attack_logs ∧
      (∀ uid2 cutoff,
        failedPred uid2 cutoff
          ⟨s.nextId, ts.getD now, "login_attempt", uid, sid, role, ctx⟩ = false)) := by
  constructor
  · intro hfail
    have hgeo : truthyOpt (ctxGet ctx "success") = false := by
      cases h : ctxGet ctx "success" with
      | none =>
        rw [ctxGetD, h] at hfail
        simp [truthy] at hfail
      | some v =>
        rw [ctxGetD, h] at hfail
        simpa [truthyOpt] using hfail
    simp only [instrument, toEv]
    rw [runChecks_login _ _ _ rfl]
    rw [check_geo_anomalies_skip_succ _ _ _ (by simpa using hgeo)]
    simp only [check_failed_logins, bne_self_eq_false, Bool.false_or]
    rw [hfail]
    simp only [Bool.false_eq_true, if_false, pushEvent, mkEventLog]
    split_ifs <;> simp [logAttack, mkEventLog]
  · intro hnone
    have hskip : truthy (ctxGetD ctx "success" (CtxVal.b true)) = true := by
      rw [ctxGetD, hnone]
      rfl
    have hgeo : truthyOpt (ctxGet ctx "success") = false := by
      rw [hnone]
      rfl
    refine ⟨?_, ?_, ?_⟩
    · simp only [instrument, toEv]
      rw [runChecks_login _ _ _ rfl,
          check_failed_logins_skip_succ _ _ (by simpa using hskip),
          check_geo_anomalies_skip_succ _ _ _ (by simpa using hgeo)]
      simp [pushEvent, mkEventLog]
    · simp only [instrument, toEv]
      rw [runChecks_login _ _ _ rfl,
          check_failed_logins_skip_succ _ _ (by simpa using hskip),
          check_geo_anomalies_skip_succ _ _ _ (by simpa using hgeo)]
      simp [pushEvent, mkEventLog]
    · intro uid2 cutoff
      simp [failedPred, ctxGetD, hnone, truthy]

/-- C2 witness: a fifth failed login inside the minute fires exactly one
failed_login record; the four prior failures are already in the store. -/
theorem failed_login_threshold_behavior_witness :
    truthy (ctxGetD [("success", CtxVal.b false)] "success" (CtxVal.b true)) = false ∧
    (instrument distTest 0
      ⟨[⟨0, 0, "login_attempt", "u1", "ip1", "USER", [("success", CtxVal.b false)]⟩,
        ⟨1, 10, "login_attempt", "u1", "ip1", "USER", [("success", CtxVal.b false)]⟩,
        ⟨2, 20, "login_attempt", "u1", "ip1", "USER", [("success", CtxVal.b false)]⟩,
        ⟨3, 30, "login_attempt", "u1", "ip1", "USER", [("success", CtxVal.b false)]⟩],
        [], fun _ => emptyProfile, 4⟩
      ⟨"login_attempt", "USER", "u1", "ip1", some 40, [("success", CtxVal.b false)]⟩).1.attack_logs =
      [] ++
        (if failed_login_threshold ≤
            (([⟨0, 0, "login_attempt", "u1", "ip1", "USER", [("success", CtxVal.b false)]⟩,
              ⟨1, 10, "login_attempt", "u1", "ip1", "USER", [("success", CtxVal.b false)]⟩,
              ⟨2, 20, "login_attempt", "u1", "ip1", "USER", [("success", CtxVal.b false)]⟩,
              ⟨3, 30, "login_attempt", "u1", "ip1", "USER", [("success", CtxVal.b false)]⟩] : List EventLog) ++
              ([(⟨4, (some (40 : Int)).getD 0, "login_attempt", "u1", "ip1", "USER",
                [("success", CtxVal.b false)]⟩ : EventLog)])).countP
              (failedPred "u1" ((some (40 : Int)).getD 0 - failed_login_window)) then
          [⟨4 + 1, (some (40 : Int)).getD 0, "login_attempt", "u1", "ip1", "USER",
            "failed_login",
            toString
              ((([⟨0, 0, "login_attempt", "u1", "ip1", "USER", [("success", CtxVal.b false)]⟩,
                ⟨1, 10, "login_attempt", "u1", "ip1", "USER", [("success", CtxVal.b false)]⟩,
                ⟨2, 20, "login_attempt", "u1", "ip1", "USER", [("success", CtxVal.b false)]⟩,
                ⟨3, 30, "login_attempt", "u1", "ip1", "USER", [("success", CtxVal.b false)]⟩] : List EventLog) ++
                ([(⟨4, (some (40 : Int)).getD 0, "login_attempt", "u1", "ip1", "USER",
                  [("success", CtxVal.b false)]⟩ : EventLog)])).countP
                (failedPred "u1" ((some (40 : Int)).getD 0 - failed_login_window))) ++
              " failed login attempts in 0:01:00", [("success", CtxVal.b false)]⟩]
         else []) :=
  ⟨rfl,
    ((failed_login_threshold_behavior distTest 0
      ⟨[⟨0, 0, "login_attempt", "u1", "ip1", "USER", [("success", CtxVal.b false)]⟩,
        ⟨1, 10, "login_attempt", "u1", "ip1", "USER", [("success", CtxVal.b false)]⟩,
        ⟨2, 20, "login_attempt", "u1", "ip1", "USER", [("success", CtxVal.b false)]⟩,
        ⟨3, 30, "login_attempt", "u1", "ip1", "USER", [("success", CtxVal.b false)]⟩],
        [], fun _ => emptyProfile, 4⟩
      "USER" "u1" "ip1" (some 40) [("success", CtxVal.b false)]).1 rfl).2⟩

/-! ### C4: toggle spam threshold -/

theorem check_unusual_time_activity_attacks_shape (s : St) (ev : Ev) :
    (check_unusual_time_activity s ev).attack_logs = s.attack_logs ∨
    ∃ r : AttackLog, (check_unusual_time_activity s ev).attack_logs = s.attack_logs ++ [r] ∧
      r.detection_type = "unusual_time" := by
  unfold check_unusual_time_activity
  split_ifs <;> simp [logAttack]

theorem check_device_impersonation_attacks_shape (s : St) (ev : Ev) :
    (check_device_impersonation s ev).attack_logs = s.attack_logs ∨
    ∃ r : AttackLog, (check_device_impersonation s ev).attack_logs = s.attack_logs ++ [r] ∧
      r.detection_type = "device_impersonation" := by
  unfold check_device_impersonation
  by_cases hg : (!(ev.event_name == "toggle_device" || ev.event_name == "adjust_device")) = true
  · rw [if_pos hg]
    left
    rfl
  · rw [if_neg hg]
    by_cases hc : ((s.user_profiles ev.user_id).authorized_devices.contains ev.source_id) = true
    · rw [if_pos hc]
      left
      rfl
    · rw [if_neg hc]
      right
      exact ⟨_, rfl, rfl⟩

theorem countP_attacks_of_shape (p : AttackLog → Bool) {s s' : St} {d : String}
    (h : s'.attack_logs = s.attack_logs ∨
      ∃ r : AttackLog, s'.attack_logs = s.attack_logs ++ [r] ∧ r.detection_type = d)
    (hd : ∀ r : AttackLog, r.detection_type = d → p r = false) :
    s'.attack_logs.countP p = s.attack_logs.countP p := by
  rcases h with h | ⟨r, h, hr⟩
  · rw [h]
  · rw [h, List.countP_append]
    simp [List.countP, List.countP.go, hd r hr]

theorem check_toggle_spam_attacks (s : St) (ev : Ev)
    (h : ev.event_name = "toggle_device" ∨ ev.event_name = "adjust_device") :
    (check_toggle_spam s ev).attack_logs =
      s.attack_logs ++
        (if (ev.user_role == "ADMIN" || ev.user_role == "MANAGER") &&
            is_business_hours ev.timestamp then []
         else if toggle_spam_threshold ≤
            s.event_history.countP (togglePred ev.user_id (ev.timestamp - toggle_spam_window)) then
          [⟨s.nextId, ev.timestamp, ev.event_name, ev.user_id, ev.source_id, ev.user_role,
            "toggle_spam",
            toString (s.event_history.countP
              (togglePred ev.user_id (ev.timestamp - toggle_spam_window))) ++
              " toggle commands in 0:00:30", ev.context⟩]
         else []) := by
  have hg : (!(ev.event_name == "toggle_device" || ev.event_name == "adjust_device")) = false := by
    rcases h with h | h <;> simp [h]
  unfold check_toggle_spam
  rw [hg]
  simp only [Bool.false_eq_true, if_false]
  split_ifs <;> simp [logAttack]

/-- C4: for a toggle_device or adjust_device event, the ingestion appends a
toggle_spam record exactly when the count of toggle/adjust events of this
user in the trailing 30 seconds — over the history including the just-stored
event — reaches 10, and the check is suppressed entirely for ADMIN/MANAGER
during business hours; at most one such record per event, and ingestion
returns the persisted record. -/
theorem toggle_spam_threshold_behavior (dist : DistFn) (now : Int) (s : St)
    (name role uid sid : String) (ts : Option Int) (ctx : Ctx)
    (hname : name = "toggle_device" ∨ name = "adjust_device") :
    (instrument dist now s ⟨name, role, uid, sid, ts, ctx⟩).2 =
      .ok ⟨s.nextId, ts.getD now, name, uid, sid, role, ctx⟩ ∧
    (instrument dist now s ⟨name, role, uid, sid, ts, ctx⟩).1.attack_logs.countP
        (fun a => a.detection_type == "toggle_spam") =
      s.attack_logs.countP (fun a => a.detection_type == "toggle_spam") +
        (if (role == "ADMIN" || role == "MANAGER") && is_business_hours (ts.getD now) then 0
         else if toggle_spam_threshold ≤
            (s.event_history ++
              [(⟨s.nextId, ts.getD now, name, uid, sid, role, ctx⟩ : EventLog)]).countP
              (togglePred uid (ts.getD now - toggle_spam_window)) then 1
         else 0) := by
  have hev : (⟨name, role, uid, sid, ts.getD now, ctx⟩ : Ev).event_name = "toggle_device" ∨
      (⟨name, role, uid, sid, ts.getD now, ctx⟩ : Ev).event_name = "adjust_device" := by
    simpa using hname
  constructor
  · simp only [instrument, toEv]
    rw [runChecks_toggle _ _ _ hev]
    simp [mkEventLog]
  · simp only [instrument, toEv]
    rw [runChecks_toggle _ _ _ hev]
    have step1 := countP_attacks_of_shape (fun a => a.detection_type == "toggle_spam")
      (check_device_impersonation_attacks_shape
        (check_unusual_time_activity
          (check_toggle_spam (pushEvent s ⟨name, role, uid, sid, ts.getD now, ctx⟩)
            ⟨name, role, uid, sid, ts.getD now, ctx⟩)
          ⟨name, role, uid, sid, ts.getD now, ctx⟩)
        ⟨name, role, uid, sid, ts.getD now, ctx⟩)
      (by intro r hr; simp [hr])
    have step2 := countP_attacks_of_shape (fun a => a.detection_type == "toggle_spam")
      (check_unusual_time_activity_attacks_shape
        (check_toggle_spam (pushEvent s ⟨name, role, uid, sid, ts.getD now, ctx⟩)
          ⟨name, role, uid, sid, ts.getD now, ctx⟩)
        ⟨name, role, uid, sid, ts.getD now, ctx⟩)
      (by intro r hr; simp [hr])
    have step3 := check_toggle_spam_attacks
      (pushEvent s ⟨name, role, uid, sid, ts.getD now, ctx⟩)
      ⟨name, role, uid, sid, ts.getD now, ctx⟩ hev
    rw [step1, step2, step3]
    simp only [List.countP_append, pushEvent, mkEventLog]
    split_ifs <;> simp

/-- C4 witness: a tenth toggle inside the 30-second window for a plain USER:
the general statement instantiated on a store holding the nine prior
toggles. -/
theorem toggle_spam_threshold_behavior_witness :
    ("toggle_device" = "toggle_device" ∨ "toggle_device" = "adjust_device") ∧
    (instrument distTest 0
      ⟨[⟨0, 0, "toggle_device", "u1", "ip1", "USER", []⟩,
        ⟨1, 1, "toggle_device", "u1", "ip1", "USER", []⟩,
        ⟨2, 2, "toggle_device", "u1", "ip1", "USER", []⟩,
        ⟨3, 3, "toggle_device", "u1", "ip1", "USER", []⟩,
        ⟨4, 4, "toggle_device", "u1", "ip1", "USER", []⟩,
        ⟨5, 5, "toggle_device", "u1", "ip1", "USER", []⟩,
        ⟨6, 6, "toggle_device", "u1", "ip1", "USER", []⟩,
        ⟨7, 7, "toggle_device", "u1", "ip1", "USER", []⟩,
        ⟨8, 8, "toggle_device", "u1", "ip1", "USER", []⟩],
        [], fun _ => emptyProfile, 9⟩
      ⟨"toggle_device", "USER", "u1", "ip1", some 9, []⟩).1.attack_logs.countP
        (fun a => a.detection_type == "toggle_spam") =
      ([] : List AttackLog).countP (fun a => a.detection_type == "toggle_spam") +
        (if ("USER" == "ADMIN" || "USER" == "MANAGER") &&
            is_business_hours ((some (9 : Int)).getD 0) then 0
         else if toggle_spam_threshold ≤
            (([⟨0, 0, "toggle_device", "u1", "ip1", "USER", []⟩,
              ⟨1, 1, "toggle_device", "u1", "ip1", "USER", []⟩,
              ⟨2, 2, "toggle_device", "u1", "ip1", "USER", []⟩,
              ⟨3, 3, "toggle_device", "u1", "ip1", "USER", []⟩,
              ⟨4, 4, "toggle_device", "u1", "ip1", "USER", []⟩,
              ⟨5, 5, "toggle_device", "u1", "ip1", "USER", []⟩,
              ⟨6, 6, "toggle_device", "u1", "ip1", "USER", []⟩,
              ⟨7, 7, "toggle_device", "u1", "ip1", "USER", []⟩,
              ⟨8, 8, "toggle_device", "u1", "ip1", "USER", []⟩] : List EventLog) ++
              ([(⟨9, (some (9 : Int)).getD 0, "toggle_device", "u1", "ip1", "USER",
                []⟩ : EventLog)])).countP
              (togglePred "u1" ((some (9 : Int)).getD 0 - toggle_spam_window)) then 1
         else 0) :=
  ⟨Or.inl rfl,
    (toggle_spam_threshold_behavior distTest 0
      ⟨[⟨0, 0, "toggle_device", "u1", "ip1", "USER", []⟩,
        ⟨1, 1, "toggle_device", "u1", "ip1", "USER", []⟩,
        ⟨2, 2, "toggle_device", "u1", "ip1", "USER", []⟩,
        ⟨3, 3, "toggle_device", "u1", "ip1", "USER", []⟩,
        ⟨4, 4, "toggle_device", "u1", "ip1", "USER", []⟩,
        ⟨5, 5, "toggle_device", "u1", "ip1", "USER", []⟩,
        ⟨6, 6, "toggle_device", "u1", "ip1", "USER", []⟩,
        ⟨7, 7, "toggle_device", "u1", "ip1", "USER", []⟩,
        ⟨8, 8, "toggle_device", "u1", "ip1", "USER", []⟩],
        [], fun _ => emptyProfile, 9⟩
      "toggle_device" "USER" "u1" "ip1" (some 9) [] (Or.inl rfl)).2⟩

/-! ### C8: every attack record references a persisted event -/

theorem StepShape_refl (s : St) (ev : Ev) : StepShape s s ev :=
  ⟨rfl, [], by simp, by intro a ha; exact absurd ha (List.not_mem_nil a)⟩

theorem StepShape_trans {s s' s'' : St} {ev : Ev}
    (g1 : StepShape s s' ev) (g2 : StepShape s' s'' ev) : StepShape s s'' ev := by
  obtain ⟨h1, Δ1, ha1, hm1⟩ := g1
  obtain ⟨h2, Δ2, ha2, hm2⟩ := g2
  refine ⟨h2.trans h1, Δ1 ++ Δ2, ?_, ?_⟩
  · rw [ha2, ha1, List.append_assoc]
  · intro a ha
    rcases List.mem_append.1 ha with h | h
    · exact hm1 a h
    · exact hm2 a h

theorem logAttack_StepShape (s : St) (ev : Ev) (d m : String) :
    StepShape s (logAttack s ev d m) ev := by
  refine ⟨rfl,
    [⟨s.nextId, ev.timestamp, ev.event_name, ev.user_id, ev.source_id,
      ev.user_role, d, m, ev.context⟩], rfl, ?_⟩
  intro a ha
  simp only [List.mem_singleton] at ha
  subst ha
  exact ⟨rfl, rfl, rfl, rfl, rfl, rfl⟩

theorem check_failed_logins_StepShape (s : St) (ev : Ev) :
    StepShape s (check_failed_logins s ev) ev := by
  unfold check_failed_logins
  dsimp only []
  split_ifs <;> first
    | exact StepShape_refl _ _
    | exact logAttack_StepShape _ _ _ _

theorem check_toggle_spam_StepShape (s : St) (ev : Ev) :
    StepShape s (check_toggle_spam s ev) ev := by
  unfold check_toggle_spam
  dsimp only []
  split_ifs <;> first
    | exact StepShape_refl _ _
    | exact logAttack_StepShape _ _ _ _

theorem check_unusual_time_activity_StepShape (s : St) (ev : Ev) :
    StepShape s (check_unusual_time_activity s ev) ev := by
  unfold check_unusual_time_activity
  split_ifs <;> first
    | exact StepShape_refl _ _
    | exact logAttack_StepShape _ _ _ _

theorem check_device_impersonation_StepShape (s : St) (ev : Ev) :
    StepShape s (check_device_impersonation s ev) ev := by
  unfold check_device_impersonation
  by_cases hg : (!(ev.event_name == "toggle_device" || ev.event_name == "adjust_device")) = true
  · rw [if_pos hg]
    exact StepShape_refl _ _
  · rw [if_neg hg]
    by_cases hc : ((s.user_profiles ev.user_id).authorized_devices.contains ev.source_id) = true
    · rw [if_pos hc]
      exact StepShape_refl _ _
    · rw [if_neg hc]
      exact logAttack_StepShape _ _ _ _

theorem check_role_escalation_StepShape (s : St) (ev : Ev) :
    StepShape s (check_role_escalation s ev) ev := by
  unfold check_role_escalation
  split
  · exact StepShape_refl _ _
  · split
    · exact StepShape_refl _ _
    · split
      · split_ifs
        · exact logAttack_StepShape _ _ _ _
        · exact StepShape_refl _ _
      · exact StepShape_refl _ _

theorem check_power_anomalies_StepShape (s : St) (ev : Ev) :
    StepShape s (stOf (check_power_anomalies s ev)) ev := by
  unfold check_power_anomalies
  dsimp only []
  split
  · exact StepShape_refl _ _
  · split
    · exact StepShape_refl _ _
    · split
      · exact StepShape_refl _ _
      · split
        · split_ifs
          · exact logAttack_StepShape _ _ _ _
          · exact logAttack_StepShape _ _ _ _
          · exact logAttack_StepShape _ _ _ _
          · exact StepShape_refl _ _
        · exact StepShape_refl _ _

theorem geoLoop_StepShape (dist : DistFn) (s : St) (ev : Ev) (loc : CtxVal)
    (L : List EventLog) : StepShape s (stOf (geoLoop dist s ev loc L)) ev := by
  induction L with
  | nil => exact StepShape_refl _ _
  | cons login rest ih =>
    unfold geoLoop
    split
    · exact StepShape_refl _ _
    · split
      · exact StepShape_refl _ _
      · split_ifs
        · exact logAttack_StepShape _ _ _ _
        · exact ih

theorem check_geo_anomalies_StepShape (dist : DistFn) (s : St) (ev : Ev) :
    StepShape s (stOf (check_geo_anomalies dist s ev)) ev := by
  unfold check_geo_anomalies
  dsimp only []
  split
  · exact StepShape_refl _ _
  · split
    · exact StepShape_refl _ _
    · split_ifs
      · exact StepShape_refl _ _
      · exact ⟨rfl, [], by simp [stOf], by intro a ha; exact absurd ha (List.not_mem_nil a)⟩
      · exact geoLoop_StepShape _ _ _ _ _

theorem runChecks_StepShape (dist : DistFn) (s : St) (ev : Ev) :
    StepShape s (stOf (runChecks dist s ev)) ev := by
  unfold runChecks
  have h1 := check_failed_logins_StepShape s ev
  have h2 := check_toggle_spam_StepShape (check_failed_logins s ev) ev
  have h3 := check_power_anomalies_StepShape (check_toggle_spam (check_failed_logins s ev) ev) ev
  cases hp : check_power_anomalies (check_toggle_spam (check_failed_logins s ev) ev) ev with
  | error t =>
    simp only [hp]
    rw [hp] at h3
    exact StepShape_trans (StepShape_trans h1 h2) h3
  | ok t =>
    simp only [hp]
    rw [hp] at h3
    have h4 := check_unusual_time_activity_StepShape t ev
    have h5 := check_geo_anomalies_StepShape dist (check_unusual_time_activity t ev) ev
    cases hg : check_geo_anomalies dist (check_unusual_time_activity t ev) ev with
    | error u =>
      simp only [hg]
      rw [hg] at h5
      exact StepShape_trans (StepShape_trans (StepShape_trans (StepShape_trans h1 h2) h3) h4) h5
    | ok u =>
      simp only [hg]
      rw [hg] at h5
      have h6 := check_device_impersonation_StepShape u ev
      have h7 := check_role_escalation_StepShape (check_device_impersonation u ev) ev
      exact StepShape_trans
        (StepShape_trans (StepShape_trans (StepShape_trans (StepShape_trans
          (StepShape_trans h1 h2) h3) h4) h5) h6) h7

theorem instrument_fst (dist : DistFn) (now : Int) (s : St) (e : Event) :
    (instrument dist now s e).1 =
      stOf (runChecks dist (pushEvent s (toEv now e)) (toEv now e)) := by
  simp only [instrument]
  cases h : runChecks dist (pushEvent s (toEv now e)) (toEv now e) <;> simp [stOf]

/-- C8: attack records always reference persisted events: the invariant holds
initially and after a reset, each ingestion appends the event record to the
store before any check runs, all records appended during the ingestion carry
exactly the just-persisted event, and the invariant is preserved by every
ingestion (including ones aborted by an exception). -/
theorem attack_references_event (dist : DistFn) (now : Int) (s : St) (e : Event) :
    Inv initState ∧
    Inv (reset_logs s) ∧
    (instrument dist now s e).1.event_history =
      s.event_history ++ [mkEventLog s (toEv now e)] ∧
    (∃ Δ, (instrument dist now s e).1.attack_logs = s.attack_logs ++ Δ ∧
      ∀ a ∈ Δ, refs a (mkEventLog s (toEv now e))) ∧
    (Inv s → Inv (instrument dist now s e).1) := by
  have hshape := runChecks_StepShape dist (pushEvent s (toEv now e)) (toEv now e)
  rw [← instrument_fst dist now s e] at hshape
  obtain ⟨hhist, Δ, hatk, hmem⟩ := hshape
  have hhist2 : (instrument dist now s e).1.event_history =
      s.event_history ++ [mkEventLog s (toEv now e)] := hhist
  have hatk2 : (instrument dist now s e).1.attack_logs = s.attack_logs ++ Δ := hatk
  have hrefs : ∀ a ∈ Δ, refs a (mkEventLog s (toEv now e)) := by
    intro a ha
    exact hmem a ha
  refine ⟨?_, ?_, hhist2, ⟨Δ, hatk2, hrefs⟩, ?_⟩
  · intro a ha
    exact absurd ha (List.not_mem_nil a)
  · intro a ha
    exact absurd ha (List.not_mem_nil a)
  · intro hInv a ha
    rw [hatk2] at ha
    rcases List.mem_append.1 ha with h | h
    · obtain ⟨l, hl, hr⟩ := hInv a h
      exact ⟨l, by rw [hhist2]; exact List.mem_append_left _ hl, hr⟩
    · exact ⟨mkEventLog s (toEv now e),
        by rw [hhist2]; exact List.mem_append_right _ (List.mem_singleton.2 rfl),
        hrefs a h⟩

/-- C8 witness: the invariant after ingesting a role-escalation event (which
does append an attack record) into the empty state. -/
theorem attack_references_event_witness :
    Inv initState ∧
    Inv (instrument distTest 0 initState
      ⟨"change_role", "USER", "u1", "ip1", some 0,
        [("new_role", CtxVal.str "ADMIN")]⟩).1 :=
  ⟨by intro a ha; exact absurd ha (List.not_mem_nil a),
   (attack_references_event distTest 0 initState
     ⟨"change_role", "USER", "u1", "ip1", some 0,
       [("new_role", CtxVal.str "ADMIN")]⟩).2.2.2.2
     (by intro a ha; exact absurd ha (List.not_mem_nil a))⟩

/-! ### C10: only the geo bootstrap touches the profile store -/

theorem ProfileFrame_of_eq {s s' : St} (ev : Ev)
    (h : s'.user_profiles = s.user_profiles) : ProfileFrame s s' ev := by
  unfold ProfileFrame
  rw [h]
  exact ⟨fun _ _ => rfl, rfl, Or.inl rfl⟩

theorem ProfileFrame_trans {s s' s'' : St} {ev : Ev}
    (g1 : ProfileFrame s s' ev) (g2 : ProfileFrame s' s'' ev) :
    ProfileFrame s s'' ev := by
  obtain ⟨o1, d1, u1⟩ := g1
  obtain ⟨o2, d2, u2⟩ := g2
  refine ⟨fun uid h => (o2 uid h).trans (o1 uid h), d2.trans d1, ?_⟩
  rcases u1 with u1 | ⟨e1, n1, sc1, lv1, hl1, ht1, hu1⟩
  · rcases u2 with u2 | ⟨e2, n2, sc2, lv2, hl2, ht2, hu2⟩
    · exact Or.inl (u2.trans u1)
    · exact Or.inr ⟨u1.symm.trans e2, n2, sc2, lv2, hl2, ht2, hu2⟩
  · rcases u2 with u2 | ⟨e2, n2, sc2, lv2, hl2, ht2, hu2⟩
    · exact Or.inr ⟨e1, n1, sc1, lv1, hl1, ht1, u2.trans hu1⟩
    · rw [hu1] at e2
      exact absurd e2 (by simp)

theorem check_failed_logins_profiles (s : St) (ev : Ev) :
    (check_failed_logins s ev).user_profiles = s.user_profiles := by
  unfold check_failed_logins
  dsimp only []
  split_ifs <;> rfl

theorem check_toggle_spam_profiles (s : St) (ev : Ev) :
    (check_toggle_spam s ev).user_profiles = s.user_profiles := by
  unfold check_toggle_spam
  dsimp only []
  split_ifs <;> rfl

theorem check_unusual_time_activity_profiles (s : St) (ev : Ev) :
    (check_unusual_time_activity s ev).user_profiles = s.user_profiles := by
  unfold check_unusual_time_activity
  split_ifs <;> rfl

theorem check_device_impersonation_profiles (s : St) (ev : Ev) :
    (check_device_impersonation s ev).user_profiles = s.user_profiles := by
  unfold check_device_impersonation
  by_cases hg : (!(ev.event_name == "toggle_device" || ev.event_name == "adjust_device")) = true
  · rw [if_pos hg]
  · rw [if_neg hg]
    by_cases hc : ((s.user_profiles ev.user_id).authorized_devices.contains ev.source_id) = true
    · rw [if_pos hc]
    · rw [if_neg hc]
      rfl

theorem check_role_escalation_profiles (s : St) (ev : Ev) :
    (check_role_escalation s ev).user_profiles = s.user_profiles := by
  unfold check_role_escalation
  split
  · rfl
  · split
    · rfl
    · split
      · split_ifs <;> rfl
      · rfl

theorem check_power_anomalies_profiles (s : St) (ev : Ev) :
    (stOf (check_power_anomalies s ev)).user_profiles = s.user_profiles := by
  unfold check_power_anomalies
  dsimp only []
  split
  · rfl
  · split
    · rfl
    · split
      · rfl
      · split
        · split_ifs <;> rfl
        · rfl

theorem geoLoop_profiles (dist : DistFn) (s : St) (ev : Ev) (loc : CtxVal)
    (L : List EventLog) :
    (stOf (geoLoop dist s ev loc L)).user_profiles = s.user_profiles := by
  induction L with
  | nil => rfl
  | cons login rest ih =>
    unfold geoLoop
    split
    · rfl
    · split
      · rfl
      · split_ifs
        · rfl
        · exact ih

theorem check_geo_anomalies_ProfileFrame (dist : DistFn) (s : St) (ev : Ev) :
    ProfileFrame s (stOf (check_geo_anomalies dist s ev)) ev := by
  unfold check_geo_anomalies
  dsimp only []
  split
  · exact ProfileFrame_of_eq ev rfl
  · rename_i hguard
    split
    · exact ProfileFrame_of_eq ev rfl
    · rename_i lv hloc
      split_ifs with h1 h2
      · exact ProfileFrame_of_eq ev rfl
      · have hname : ev.event_name = "login_attempt" ∧
            truthyOpt (ctxGet ev.context "success") = true := by
          simpa [not_or] using hguard
        simp only [stOf]
        refine ⟨?_, ?_, ?_⟩
        · intro uid h
          exact Function.update_noteq h _ _
        · simp [Function.update_same]
        · right
          refine ⟨by simpa using h2, hname.1, hname.2, lv, hloc, by simpa using h1, ?_⟩
          simp [Function.update_same]
      · exact ProfileFrame_of_eq ev (geoLoop_profiles _ _ _ _ _)

theorem runChecks_ProfileFrame (dist : DistFn) (s : St) (ev : Ev) :
    ProfileFrame s (stOf (runChecks dist s ev)) ev := by
  unfold runChecks
  have h1 := ProfileFrame_of_eq (s := s) ev (check_failed_logins_profiles s ev)
  have h2 := ProfileFrame_of_eq (s := check_failed_logins s ev) ev
    (check_toggle_spam_profiles (check_failed_logins s ev) ev)
  have h3 := ProfileFrame_of_eq (s := check_toggle_spam (check_failed_logins s ev) ev) ev
    (check_power_anomalies_profiles (check_toggle_spam (check_failed_logins s ev) ev) ev)
  cases hp : check_power_anomalies (check_toggle_spam (check_failed_logins s ev) ev) ev with
  | error t =>
    simp only [hp]
    rw [hp] at h3
    exact ProfileFrame_trans (ProfileFrame_trans h1 h2) h3
  | ok t =>
    simp only [hp]
    rw [hp] at h3
    have h4 := ProfileFrame_of_eq (s := t) ev (check_unusual_time_activity_profiles t ev)
    have h5 := check_geo_anomalies_ProfileFrame dist (check_unusual_time_activity t ev) ev
    cases hg : check_geo_anomalies dist (check_unusual_time_activity t ev) ev with
    | error u =>
      simp only [hg]
      rw [hg] at h5
      exact ProfileFrame_trans (ProfileFrame_trans (ProfileFrame_trans
        (ProfileFrame_trans h1 h2) h3) h4) h5
    | ok u =>
      simp only [hg]
      rw [hg] at h5
      have h6 := ProfileFrame_of_eq (s := u) ev (check_device_impersonation_profiles u ev)
      have h7 := ProfileFrame_of_eq (s := check_device_impersonation u ev) ev
        (check_role_escalation_profiles (check_device_impersonation u ev) ev)
      exact ProfileFrame_trans (ProfileFrame_trans (ProfileFrame_trans (ProfileFrame_trans
        (ProfileFrame_trans (ProfileFrame_trans h1 h2) h3) h4) h5) h6) h7

/-- C10: one ingestion changes the profile store at most through the geo
bootstrap: all other users keep their profiles, the acting user keeps their
authorized_devices, and their usual_locations either stay unchanged or —
exactly when the user had none and the event is a successful located
login_attempt — become the singleton holding that location. -/
theorem profile_frame (dist : DistFn) (now : Int) (s : St) (e : Event) :
    ProfileFrame s (instrument dist now s e).1 (toEv now e) := by
  rw [instrument_fst]
  exact runChecks_ProfileFrame dist (pushEvent s (toEv now e)) (toEv now e)

/-- C10 witness: the frame applied to a first successful located login into
the empty state. -/
theorem profile_frame_witness :
    ProfileFrame initState
      (instrument distTest 0 initState
        ⟨"login_attempt", "USER", "u1", "ip1", some 0,
          [("success", CtxVal.b true), ("location", CtxVal.str "1,1")]⟩).1
      (toEv 0 ⟨"login_attempt", "USER", "u1", "ip1", some 0,
        [("success", CtxVal.b true), ("location", CtxVal.str "1,1")]⟩) :=
  profile_frame distTest 0 initState
    ⟨"login_attempt", "USER", "u1", "ip1", some 0,
      [("success", CtxVal.b true), ("location", CtxVal.str "1,1")]⟩

/-! ### C3: geo anomaly — bootstrap and windowed comparison -/

theorem geoLoop_eq_scan (dist : DistFn) (s : St) (ev : Ev) (loc : CtxVal)
    (L : List EventLog) :
    geoLoop dist s ev loc L =
      (match geoScan dist loc L with
        | .error _ => .error s
        | .ok none => .ok s
        | .ok (some (ll, d)) => .ok (logAttack s ev "geo_anomaly" (geoMsg loc d ll))) := by
  induction L with
  | nil => rfl
  | cons login rest ih =>
    cases hl : ctxGet login.context "location" with
    | none => simp only [geoLoop, geoScan, hl]
    | some ll =>
      simp only [geoLoop, geoScan, hl]
      cases hd : distCall dist ll loc with
      | error u => simp only [hd]
      | ok d =>
        simp only [hd]
        by_cases hfire : geo_distance_threshold_m < d
        · simp only [if_pos hfire]
        · simp only [if_neg hfire]
          exact ih

theorem geoScan_append_self (dist : DistFn) (loc : CtxVal) (selfLog : EventLog)
    (hl : ctxGet selfLog.context "location" = some loc)
    (hd : distCall dist loc loc = .ok 0) (L : List EventLog) :
    geoScan dist loc (L ++ [selfLog]) = geoScan dist loc L := by
  induction L with
  | nil =>
    simp only [List.nil_append]
    simp only [geoScan, hl, hd]
    rw [if_neg (by norm_num [geo_distance_threshold_m])]
  | cons login rest ih =>
    simp only [List.cons_append]
    cases hl2 : ctxGet login.context "location" with
    | none => simp only [geoScan, hl2]
    | some ll =>
      simp only [geoScan, hl2]
      cases hd2 : distCall dist ll loc with
      | error u => simp only [hd2]
      | ok d =>
        simp only [hd2]
        by_cases hfire : geo_distance_threshold_m < d
        · simp only [if_pos hfire]
        · simp only [if_neg hfire]
          exact ih

theorem geoScan_total (dist : DistFn) (loc : CtxVal) (L : List EventLog)
    (htot : ∀ l ∈ L, ∃ ll d, ctxGet l.context "location" = some ll ∧
      distCall dist ll loc = .ok d) :
    ∃ res, geoScan dist loc L = .ok res ∧
      (res.isSome = true ↔ ∃ l ∈ L, fireB dist loc l = true) := by
  induction L with
  | nil => exact ⟨none, rfl, by simp⟩
  | cons login rest ih =>
    obtain ⟨ll, d, hll, hd⟩ := htot login (List.mem_cons_self _ _)
    by_cases hfire : geo_distance_threshold_m < d
    · refine ⟨some (ll, d), ?_, ?_⟩
      · simp only [geoScan, hll, hd, if_pos hfire]
      · simp only [Option.isSome_some, true_iff]
        refine ⟨login, List.mem_cons_self _ _, ?_⟩
        simp only [fireB, hll, hd]
        simpa using hfire
    · obtain ⟨res, hres, hiff⟩ := ih (fun l hl => htot l (List.mem_cons_of_mem _ hl))
      refine ⟨res, ?_, ?_⟩
      · simp only [geoScan, hll, hd, if_neg hfire]
        exact hres
      · rw [hiff]
        constructor
        · rintro ⟨l, hl, hf⟩
          exact ⟨l, List.mem_cons_of_mem _ hl, hf⟩
        · rintro ⟨l, hl, hf⟩
          rcases List.mem_cons.1 hl with rfl | hl
          · exfalso
            simp only [fireB, hll, hd] at hf
            simp at hf
            exact hfire hf
          · exact ⟨l, hl, hf⟩

theorem check_geo_anomalies_eq (dist : DistFn) (s : St) (ev : Ev) (lv : CtxVal)
    (hname : ev.event_name = "login_attempt")
    (hsucc : truthyOpt (ctxGet ev.context "success") = true)
    (hloc : ctxGet ev.context "location" = some lv)
    (htr : truthy lv = true) :
    check_geo_anomalies dist s ev =
      (if (s.user_profiles ev.user_id).usual_locations.isEmpty then
        .ok (seedProfile s ev.user_id lv)
      else
        geoLoop dist s ev lv
          (s.event_history.filter
            (recentLoginPred ev.user_id (ev.timestamp - geo_time_window)))) := by
  unfold check_geo_anomalies
  rw [hname, hloc]
  simp only [hsucc, htr, bne_self_eq_false, Bool.not_true, Bool.or_false,
    Bool.false_eq_true, if_false, Bool.not_false]
  rfl

/-- C3: for a successful login_attempt carrying a (truthy) location: when the
user has no recorded usual locations the profile is seeded with that location
and no geo_anomaly record is produced; otherwise the stored successful
located logins of the user within the trailing minute are scanned in order
(the just-persisted event ends the scan harmlessly at distance zero), and
exactly one geo_anomaly record — reporting the first offending prior login's
location and distance — is appended precisely when some such prior login lies
more than 500 m away.  Ingestion returns the persisted record. -/
theorem geo_anomaly_behavior (dist : DistFn) (now : Int) (s : St)
    (role uid sid : String) (ts : Option Int) (ctx : Ctx) (lv : CtxVal)
    (hsucc : truthyOpt (ctxGet ctx "success") = true)
    (hloc : ctxGet ctx "location" = some lv)
    (htr : truthy lv = true) :
    ((s.user_profiles uid).usual_locations = [] →
      (instrument dist now s ⟨"login_attempt", role, uid, sid, ts, ctx⟩).2 =
        .ok ⟨s.nextId, ts.getD now, "login_attempt", uid, sid, role, ctx⟩ ∧
      (instrument dist now s ⟨"login_attempt", role, uid, sid, ts, ctx⟩).1.attack_logs =
        s.attack_logs ∧
      (instrument dist now s ⟨"login_attempt", role, uid, sid, ts, ctx⟩).1.user_profiles =
        Function.update s.user_profiles uid
          ⟨[lv], (s.user_profiles uid).authorized_devices⟩) ∧
    ((s.user_profiles uid).usual_locations ≠ [] →
      distCall dist lv lv = .ok 0 →
      (∀ l ∈ s.event_history.filter
          (recentLoginPred uid (ts.getD now - geo_time_window)),
        ∃ ll d, ctxGet l.context "location" = some ll ∧ distCall dist ll lv = .ok d) →
      ∃ res, geoScan dist lv (s.event_history.filter
          (recentLoginPred uid (ts.getD now - geo_time_window))) = .ok res ∧
        (instrument dist now s ⟨"login_attempt", role, uid, sid, ts, ctx⟩).2 =
          .ok ⟨s.nextId, ts.getD now, "login_attempt", uid, sid, role, ctx⟩ ∧
        (instrument dist now s ⟨"login_attempt", role, uid, sid, ts, ctx⟩).1.attack_logs =
          s.attack_logs ++
            (match res with
              | some (ll, d) =>
                [⟨s.nextId + 1, ts.getD now, "login_attempt", uid, sid, role,
                  "geo_anomaly", geoMsg lv d ll, ctx⟩]
              | none => []) ∧
        (res.isSome = true ↔
          ∃ l ∈ s.event_history.filter
            (recentLoginPred uid (ts.getD now - geo_time_window)),
            fireB dist lv l = true)) := by
  have hgetD : truthy (ctxGetD ctx "success" (CtxVal.b true)) = true := by
    cases h : ctxGet ctx "success" with
    | none =>
      rw [h] at hsucc
      simp [truthyOpt] at hsucc
    | some v =>
      rw [ctxGetD, h]
      rw [h] at hsucc
      simpa [truthyOpt] using hsucc
  have hrun : instrument dist now s ⟨"login_attempt", role, uid, sid, ts, ctx⟩ =
      (match check_geo_anomalies dist
          (pushEvent s ⟨"login_attempt", role, uid, sid, ts.getD now, ctx⟩)
          ⟨"login_attempt", role, uid, sid, ts.getD now, ctx⟩ with
        | .ok s2 => (s2, .ok ⟨s.nextId, ts.getD now, "login_attempt", uid, sid, role, ctx⟩)
        | .error s2 => (s2, .error ())) := by
    simp only [instrument, toEv]
    rw [runChecks_login _ _ _ rfl, check_failed_logins_skip_succ _ _ hgetD]
    rfl
  rw [check_geo_anomalies_eq dist
    (pushEvent s ⟨"login_attempt", role, uid, sid, ts.getD now, ctx⟩)
    ⟨"login_attempt", role, uid, sid, ts.getD now, ctx⟩ lv rfl hsucc hloc htr] at hrun
  constructor
  · intro husual
    rw [if_pos (by simp [pushEvent, husual])] at hrun
    rw [hrun]
    refine ⟨rfl, rfl, ?_⟩
    simp [seedProfile, pushEvent, Function.update]
  · intro husual hself htot
    rw [if_neg (by simp [pushEvent, husual])] at hrun
    have hlogpred : recentLoginPred uid (ts.getD now - geo_time_window)
        ⟨s.nextId, ts.getD now, "login_attempt", uid, sid, role, ctx⟩ = true := by
      simp [recentLoginPred, hsucc, hloc, geo_time_window]
    have hfilter : (pushEvent s
        ⟨"login_attempt", role, uid, sid, ts.getD now, ctx⟩).event_history.filter
          (recentLoginPred uid (ts.getD now - geo_time_window)) =
        s.event_history.filter (recentLoginPred uid (ts.getD now - geo_time_window)) ++
          [⟨s.nextId, ts.getD now, "login_attempt", uid, sid, role, ctx⟩] := by
      simp only [pushEvent, mkEventLog, List.filter_append, List.filter_singleton,
        hlogpred, cond_true]
    rw [hfilter] at hrun
    obtain ⟨res, hres, hiff⟩ := geoScan_total dist lv
      (s.event_history.filter (recentLoginPred uid (ts.getD now - geo_time_window))) htot
    have hscan : geoScan dist lv
        (s.event_history.filter (recentLoginPred uid (ts.getD now - geo_time_window)) ++
          [⟨s.nextId, ts.getD now, "login_attempt", uid, sid, role, ctx⟩]) = .ok res := by
      rw [geoScan_append_self dist lv _ hloc hself]
      exact hres
    rw [geoLoop_eq_scan, hscan] at hrun
    refine ⟨res, hres, ?_⟩
    cases res with
    | none =>
      rw [hrun]
      exact ⟨rfl, by simp [pushEvent], hiff⟩
    | some p =>
      obtain ⟨ll, d⟩ := p
      rw [hrun]
      refine ⟨rfl, ?_, hiff⟩
      simp [logAttack, pushEvent]

/-- C3 witness: first successful located login of a fresh user seeds the
profile and appends no attack record. -/
theorem geo_anomaly_behavior_witness :
    truthyOpt (ctxGet [("success", CtxVal.b true), ("location", CtxVal.str "1,1")]
      "success") = true ∧
    ctxGet [("success", CtxVal.b true), ("location", CtxVal.str "1,1")] "location" =
      some (CtxVal.str "1,1") ∧
    truthy (CtxVal.str "1,1") = true ∧
    (initState.user_profiles "u1").usual_locations = [] ∧
    (instrument distTest 0 initState
      ⟨"login_attempt", "USER", "u1", "ip1", some 0,
        [("success", CtxVal.b true), ("location", CtxVal.str "1,1")]⟩).1.attack_logs =
      initState.attack_logs ∧
    (instrument distTest 0 initState
      ⟨"login_attempt", "USER", "u1", "ip1", some 0,
        [("success", CtxVal.b true), ("location", CtxVal.str "1,1")]⟩).1.user_profiles =
      Function.update initState.user_profiles "u1"
        ⟨[CtxVal.str "1,1"], (initState.user_profiles "u1").authorized_devices⟩ := by
  have h := (geo_anomaly_behavior distTest 0 initState "USER" "u1" "ip1" (some 0)
    [("success", CtxVal.b true), ("location", CtxVal.str "1,1")] (CtxVal.str "1,1")
    rfl rfl rfl).1 rfl
  exact ⟨rfl, rfl, rfl, rfl, h.2.1, h.2.2⟩

/-! ### C9: distance symmetry and zero at identical coordinates -/

theorem haversine_a_symm (lat1 lon1 lat2 lon2 : ℝ) :
    haversine_a lat2 lon2 lat1 lon1 = haversine_a lat1 lon1 lat2 lon2 := by
  unfold haversine_a radians
  have e1 : (lat1 - lat2) * Real.pi / 180 / 2 = -((lat2 - lat1) * Real.pi / 180 / 2) := by
    ring
  have e2 : (lon1 - lon2) * Real.pi / 180 / 2 = -((lon2 - lon1) * Real.pi / 180 / 2) := by
    ring
  rw [e1, e2, Real.sin_neg, Real.sin_neg]
  ring

theorem haversine_a_self (lat lon : ℝ) : haversine_a lat lon lat lon = 0 := by
  unfold haversine_a radians
  simp [sub_self]

theorem haversine_m_symm (lat1 lon1 lat2 lon2 : ℝ) :
    haversine_m lat1 lon1 lat2 lon2 = haversine_m lat2 lon2 lat1 lon1 := by
  unfold haversine_m
  rw [haversine_a_symm]

theorem haversine_m_self (lat lon : ℝ) : haversine_m lat lon lat lon = 0 := by
  unfold haversine_m
  rw [haversine_a_self]
  have h1 : Real.sqrt 0 = 0 := Real.sqrt_zero
  have h2 : Real.sqrt (1 - 0) = 1 := by
    norm_num
  rw [h1, h2]
  have h3 : atan2 0 1 = 0 := by
    unfold atan2
    rw [if_pos (by norm_num : (0 : ℝ) < 1)]
    norm_num
  rw [h3]
  ring

/-- C9: for all coordinate strings, the great-circle distance computed by the
haversine formula on the 6,371,000 m sphere is symmetric (unparseable inputs
fail identically on both sides), and on any well-formed coordinate string the
distance to itself is zero. -/
theorem distance_symm_and_self_zero (A B : String) :
    calculate_distance_meters A B = calculate_distance_meters B A ∧
    (∀ p, parseCoord A = some p → calculate_distance_meters A A = some 0) := by
  constructor
  · unfold calculate_distance_meters
    cases hA : parseCoord A with
    | none =>
      cases hB : parseCoord B with
      | none => rfl
      | some pb =>
        obtain ⟨lat2, lon2⟩ := pb
        simp
    | some pa =>
      obtain ⟨lat1, lon1⟩ := pa
      cases hB : parseCoord B with
      | none => simp
      | some pb =>
        obtain ⟨lat2, lon2⟩ := pb
        simp only []
        rw [haversine_m_symm]
  · intro p hp
    obtain ⟨lat, lon⟩ := p
    unfold calculate_distance_meters
    rw [hp]
    simp only []
    rw [haversine_m_self]

/-- C9 witness: symmetry and self-distance zero at concrete coordinate
strings. -/
theorem distance_symm_and_self_zero_witness :
    calculate_distance_meters "1,2" "3,4" = calculate_distance_meters "3,4" "1,2" ∧
    parseCoord "1,2" = some (1, 2) ∧
    calculate_distance_meters "1,2" "1,2" = some 0 :=
  ⟨(distance_symm_and_self_zero "1,2" "3,4").1, by decide,
   (distance_symm_and_self_zero "1,2" "1,2").2 (1, 2) (by decide)⟩

/-! ### C7: reset + replay reproduces the attack sequence (modulo ids) -/

theorem failedPred_congr (uid : String) (cutoff : Int) {a b : EventLog}
    (h : eraseE a = eraseE b) :
    failedPred uid cutoff a = failedPred uid cutoff b := by
  have h1 : a.event_name = b.event_name := congrArg EventLogE.event_name h
  have h2 : a.user_id = b.user_id := congrArg EventLogE.user_id h
  have h3 : a.timestamp = b.timestamp := congrArg EventLogE.timestamp h
  have h4 : a.context = b.context := congrArg EventLogE.context h
  unfold failedPred
  rw [h1, h2, h3, h4]

theorem togglePred_congr (uid : String) (cutoff : Int) {a b : EventLog}
    (h : eraseE a = eraseE b) :
    togglePred uid cutoff a = togglePred uid cutoff b := by
  have h1 : a.event_name = b.event_name := congrArg EventLogE.event_name h
  have h2 : a.user_id = b.user_id := congrArg EventLogE.user_id h
  have h3 : a.timestamp = b.timestamp := congrArg EventLogE.timestamp h
  unfold togglePred
  rw [h1, h2, h3]

theorem recentLoginPred_congr (uid : String) (cutoff : Int) {a b : EventLog}
    (h : eraseE a = eraseE b) :
    recentLoginPred uid cutoff a = recentLoginPred uid cutoff b := by
  have h1 : a.event_name = b.event_name := congrArg EventLogE.event_name h
  have h2 : a.user_id = b.user_id := congrArg EventLogE.user_id h
  have h3 : a.timestamp = b.timestamp := congrArg EventLogE.timestamp h
  have h4 : a.context = b.context := congrArg EventLogE.context h
  unfold recentLoginPred
  rw [h1, h2, h3, h4]

theorem countP_congr_of_map {α β : Type} (f : α → β) (p : α → Bool)
    (hp : ∀ a b, f a = f b → p a = p b) :
    ∀ {l₁ l₂ : List α}, l₁.map f = l₂.map f → l₁.countP p = l₂.countP p := by
  intro l₁
  induction l₁ with
  | nil =>
    intro l₂ h
    cases l₂ with
    | nil => rfl
    | cons y ys => simp at h
  | cons x xs ih =>
    intro l₂ h
    cases l₂ with
    | nil => simp at h
    | cons y ys =>
      simp only [List.map_cons, List.cons.injEq] at h
      rw [List.countP_cons, List.countP_cons, hp x y h.1, ih h.2]

theorem filter_congr_of_map {α β : Type} (f : α → β) (p : α → Bool)
    (hp : ∀ a b, f a = f b → p a = p b) :
    ∀ {l₁ l₂ : List α}, l₁.map f = l₂.map f →
      (l₁.filter p).map f = (l₂.filter p).map f := by
  intro l₁
  induction l₁ with
  | nil =>
    intro l₂ h
    cases l₂ with
    | nil => rfl
    | cons y ys => simp at h
  | cons x xs ih =>
    intro l₂ h
    cases l₂ with
    | nil => simp at h
    | cons y ys =>
      simp only [List.map_cons, List.cons.injEq] at h
      rw [List.filter_cons, List.filter_cons, hp x y h.1]
      by_cases hpy : p y = true
      · rw [if_pos hpy, if_pos hpy]
        simp only [List.map_cons, List.cons.injEq]
        exact ⟨h.1, ih h.2⟩
      · rw [if_neg hpy, if_neg hpy]
        exact ih h.2

theorem logAttack_congr {s₁ s₂ : St} (ev : Ev) (d m : String)
    (h : Agree s₁ s₂) : Agree (logAttack s₁ ev d m) (logAttack s₂ ev d m) := by
  obtain ⟨he, ha, hp⟩ := h
  refine ⟨he, ?_, hp⟩
  show (s₁.attack_logs ++ _).map eraseA = (s₂.attack_logs ++ _).map eraseA
  rw [List.map_append, List.map_append, ha]
  rfl

theorem check_failed_logins_congr {s₁ s₂ : St} (ev : Ev) (h : Agree s₁ s₂) :
    Agree (check_failed_logins s₁ ev) (check_failed_logins s₂ ev) := by
  unfold check_failed_logins
  dsimp only []
  by_cases hg : (ev.event_name != "login_attempt" ||
      truthy (ctxGetD ev.context "success" (CtxVal.b true))) = true
  · rw [if_pos hg, if_pos hg]
    exact h
  · rw [if_neg hg, if_neg hg]
    have hn : s₁.event_history.countP
        (failedPred ev.user_id (ev.timestamp - failed_login_window)) =
        s₂.event_history.countP
        (failedPred ev.user_id (ev.timestamp - failed_login_window)) :=
      countP_congr_of_map eraseE _ (fun a b hab => failedPred_congr _ _ hab) h.1
    rw [hn]
    by_cases ht : failed_login_threshold ≤ s₂.event_history.countP
        (failedPred ev.user_id (ev.timestamp - failed_login_window))
    · rw [if_pos ht, if_pos ht]
      exact logAttack_congr _ _ _ h
    · rw [if_neg ht, if_neg ht]
      exact h

theorem check_toggle_spam_congr {s₁ s₂ : St} (ev : Ev) (h : Agree s₁ s₂) :
    Agree (check_toggle_spam s₁ ev) (check_toggle_spam s₂ ev) := by
  unfold check_toggle_spam
  dsimp only []
  by_cases hg : (!(ev.event_name == "toggle_device" ||
      ev.event_name == "adjust_device")) = true
  · rw [if_pos hg, if_pos hg]
    exact h
  · rw [if_neg hg, if_neg hg]
    by_cases hs : ((ev.user_role == "ADMIN" || ev.user_role == "MANAGER") &&
        is_business_hours ev.timestamp) = true
    · rw [if_pos hs, if_pos hs]
      exact h
    · rw [if_neg hs, if_neg hs]
      have hn : s₁.event_history.countP
          (togglePred ev.user_id (ev.timestamp - toggle_spam_window)) =
          s₂.event_history.countP
          (togglePred ev.user_id (ev.timestamp - toggle_spam_window)) :=
        countP_congr_of_map eraseE _ (fun a b hab => togglePred_congr _ _ hab) h.1
      rw [hn]
      by_cases ht : toggle_spam_threshold ≤ s₂.event_history.countP
          (togglePred ev.user_id (ev.timestamp - toggle_spam_window))
      · rw [if_pos ht, if_pos ht]
        exact logAttack_congr _ _ _ h
      · rw [if_neg ht, if_neg ht]
        exact h

theorem check_power_anomalies_congr {s₁ s₂ : St} (ev : Ev) (h : Agree s₁ s₂) :
    AgreeE (check_power_anomalies s₁ ev) (check_power_anomalies s₂ ev) := by
  unfold check_power_anomalies
  dsimp only []
  by_cases hg : (ev.event_name != "power_reading") = true
  · rw [if_pos hg, if_pos hg]
    exact h
  · rw [if_neg hg, if_neg hg]
    split
    · exact h
    · split
      · exact h
      · split
        · split_ifs <;> first
            | exact logAttack_congr _ _ _ h
            | exact h
        · exact h

theorem check_unusual_time_activity_congr {s₁ s₂ : St} (ev : Ev) (h : Agree s₁ s₂) :
    Agree (check_unusual_time_activity s₁ ev) (check_unusual_time_activity s₂ ev) := by
  unfold check_unusual_time_activity
  split_ifs <;> first
    | exact logAttack_congr _ _ _ h
    | exact h

theorem check_device_impersonation_congr {s₁ s₂ : St} (ev : Ev) (h : Agree s₁ s₂) :
    Agree (check_device_impersonation s₁ ev) (check_device_impersonation s₂ ev) := by
  unfold check_device_impersonation
  dsimp only []
  rw [h.2.2]
  by_cases hg : (!(ev.event_name == "toggle_device" ||
      ev.event_name == "adjust_device")) = true
  · rw [if_pos hg, if_pos hg]
    exact h
  · rw [if_neg hg, if_neg hg]
    by_cases hc : ((s₂.user_profiles ev.user_id).authorized_devices.contains
        ev.source_id) = true
    · rw [if_pos hc, if_pos hc]
      exact h
    · rw [if_neg hc, if_neg hc]
      exact logAttack_congr _ _ _ h

theorem check_role_escalation_congr {s₁ s₂ : St} (ev : Ev) (h : Agree s₁ s₂) :
    Agree (check_role_escalation s₁ ev) (check_role_escalation s₂ ev) := by
  unfold check_role_escalation
  split
  · exact h
  · split
    · exact h
    · split
      · split_ifs
        · exact logAttack_congr _ _ _ h
        · exact h
      · exact h

theorem geoLoop_congr (dist : DistFn) (ev : Ev) (loc : CtxVal) :
    ∀ {L₁ L₂ : List EventLog} {s₁ s₂ : St}, Agree s₁ s₂ →
      L₁.map eraseE = L₂.map eraseE →
      AgreeE (geoLoop dist s₁ ev loc L₁) (geoLoop dist s₂ ev loc L₂) := by
  intro L₁
  induction L₁ with
  | nil =>
    intro L₂ s₁ s₂ h hL
    cases L₂ with
    | nil => exact h
    | cons y ys => simp at hL
  | cons x xs ih =>
    intro L₂ s₁ s₂ h hL
    cases L₂ with
    | nil => simp at hL
    | cons y ys =>
      simp only [List.map_cons, List.cons.injEq] at hL
      have hctx : x.context = y.context := congrArg EventLogE.context hL.1
      simp only [geoLoop, hctx]
      split
      · exact h
      · split
        · exact h
        · split_ifs
          · exact logAttack_congr _ _ _ h
          · exact ih h hL.2

theorem check_geo_anomalies_congr (dist : DistFn) {s₁ s₂ : St} (ev : Ev)
    (h : Agree s₁ s₂) :
    AgreeE (check_geo_anomalies dist s₁ ev) (check_geo_anomalies dist s₂ ev) := by
  unfold check_geo_anomalies
  dsimp only []
  rw [h.2.2]
  by_cases hg : (ev.event_name != "login_attempt" ||
      !truthyOpt (ctxGet ev.context "success")) = true
  · rw [if_pos hg, if_pos hg]
    exact h
  · rw [if_neg hg, if_neg hg]
    split
    · exact h
    · rename_i lv hleq
      split_ifs
      · exact h
      · exact ⟨h.1, h.2.1, rfl⟩
      · exact geoLoop_congr dist ev lv h
          (filter_congr_of_map eraseE _
            (fun a b hab => recentLoginPred_congr _ _ hab) h.1)

theorem runChecks_congr (dist : DistFn) {s₁ s₂ : St} (ev : Ev) (h : Agree s₁ s₂) :
    AgreeE (runChecks dist s₁ ev) (runChecks dist s₂ ev) := by
  unfold runChecks
  have h2 := check_toggle_spam_congr ev (check_failed_logins_congr ev h)
  have h3 := check_power_anomalies_congr ev h2
  cases hp₁ : check_power_anomalies (check_toggle_spam (check_failed_logins s₁ ev) ev) ev with
  | error t₁ =>
    cases hp₂ : check_power_anomalies (check_toggle_spam (check_failed_logins s₂ ev) ev) ev with
    | error t₂ =>
      rw [hp₁, hp₂] at h3
      dsimp only []
      exact h3
    | ok t₂ =>
      rw [hp₁, hp₂] at h3
      exact absurd h3 (by simp [AgreeE])
  | ok t₁ =>
    cases hp₂ : check_power_anomalies (check_toggle_spam (check_failed_logins s₂ ev) ev) ev with
    | error t₂ =>
      rw [hp₁, hp₂] at h3
      exact absurd h3 (by simp [AgreeE])
    | ok t₂ =>
      rw [hp₁, hp₂] at h3
      have h4 := check_unusual_time_activity_congr ev h3
      have h5 := check_geo_anomalies_congr dist ev h4
      dsimp only []
      cases hg₁ : check_geo_anomalies dist (check_unusual_time_activity t₁ ev) ev with
      | error u₁ =>
        cases hg₂ : check_geo_anomalies dist (check_unusual_time_activity t₂ ev) ev with
        | error u₂ =>
          rw [hg₁, hg₂] at h5
          dsimp only []
          exact h5
        | ok u₂ =>
          rw [hg₁, hg₂] at h5
          exact absurd h5 (by simp [AgreeE])
      | ok u₁ =>
        cases hg₂ : check_geo_anomalies dist (check_unusual_time_activity t₂ ev) ev with
        | error u₂ =>
          rw [hg₁, hg₂] at h5
          exact absurd h5 (by simp [AgreeE])
        | ok u₂ =>
          rw [hg₁, hg₂] at h5
          dsimp only []
          exact check_role_escalation_congr ev (check_device_impersonation_congr ev h5)

theorem pushEvent_congr {s₁ s₂ : St} (ev : Ev) (h : Agree s₁ s₂) :
    Agree (pushEvent s₁ ev) (pushEvent s₂ ev) := by
  obtain ⟨he, ha, hp⟩ := h
  refine ⟨?_, ha, hp⟩
  show (s₁.event_history ++ _).map eraseE = (s₂.event_history ++ _).map eraseE
  rw [List.map_append, List.map_append, he]
  rfl

theorem instrument_congr (dist : DistFn) (now : Int) {s₁ s₂ : St} (e : Event)
    (h : Agree s₁ s₂) :
    Agree (instrument dist now s₁ e).1 (instrument dist now s₂ e).1 := by
  rw [instrument_fst, instrument_fst]
  have hr := runChecks_congr dist (toEv now e) (pushEvent_congr (toEv now e) h)
  cases hr₁ : runChecks dist (pushEvent s₁ (toEv now e)) (toEv now e) with
  | error t₁ =>
    cases hr₂ : runChecks dist (pushEvent s₂ (toEv now e)) (toEv now e) with
    | error t₂ =>
      rw [hr₁, hr₂] at hr
      exact hr
    | ok t₂ =>
      rw [hr₁, hr₂] at hr
      exact absurd hr (by simp [AgreeE])
  | ok t₁ =>
    cases hr₂ : runChecks dist (pushEvent s₂ (toEv now e)) (toEv now e) with
    | error t₂ =>
      rw [hr₁, hr₂] at hr
      exact absurd hr (by simp [AgreeE])
    | ok t₂ =>
      rw [hr₁, hr₂] at hr
      exact hr

theorem runEvents_congr (dist : DistFn) (now : Int) (es : List Event) :
    ∀ {s₁ s₂ : St}, Agree s₁ s₂ →
      Agree (runEvents dist now s₁ es) (runEvents dist now s₂ es) := by
  induction es with
  | nil => intro s₁ s₂ h; exact h
  | cons e rest ih =>
    intro s₁ s₂ h
    exact ih (instrument_congr dist now e h)

/-- C7: running a sequence of events from the initial state, resetting, and
running the identical sequence again produces the identical sequence of
attack records — same triggering-event fields, detection types and messages
in the same order (ids are freshly generated and excluded, as in the claim):
a reset state differs from the initial state only in the external id source,
which the detection logic never reads. -/
theorem reset_replay_reproduces_attacks (dist : DistFn) (now : Int) (es : List Event) :
    (runEvents dist now (reset_logs (runEvents dist now initState es)) es).attack_logs.map
      eraseA =
    (runEvents dist now initState es).attack_logs.map eraseA := by
  have h0 : Agree (reset_logs (runEvents dist now initState es)) initState :=
    ⟨rfl, rfl, rfl⟩
  exact (runEvents_congr dist now es h0).2.1

end Detect
